import Mathlib

/-!
A shallow embedding of the claim-ledger core of the Whatnot claims bot
(`src/Bot.py`): the sqlite tables (`items`, `winners`, `guest_winners`,
`claims`, `settings`), the helper functions that read and write them, the
reaction-claim event handler, the staff commands (assign, random, guest
variants, swap, unassign, winner grants), the confirmation gate for the
destructive commands (wipe, newshow, panic, endshow) and the `!sort`
rebuild of the claim log.

External I/O (Discord message sends, role changes, DMs, channel locking,
HTTP fetches) is not part of the ledger state; the embedding keeps only
the database effects and models the few external inputs that the control
flow branches on (guild lookup success, member fetch success, the fresh
message id produced by a repost) as explicit parameters.  Timestamps
(`now_utc_iso`, `time.monotonic`) are passed in as parameters as well.
-/

namespace EvansBot

/-! ### Structural string primitives

Python string operations are modelled by structurally recursive functions
over the character list of a `String` (Lean's own `String.toUpper`,
`String.trim`, ... are compiled with well-founded recursion and do not
evaluate inside the kernel, which concrete witnesses need).  `py_upper` /
`py_lower` are exactly `String.toUpper` / `String.toLower` (ASCII case
mapping), `py_strip` is `str.strip()`, `py_int` is the
`int(v) if v.isdigit() else ...` pattern, `starts_with` is
`str.startswith`. -/

/-- Python `str.upper()` (ASCII, like `String.toUpper`). -/
def py_upper (s : String) : String :=
  ⟨s.data.map Char.toUpper⟩

/-- Python `str.lower()` (ASCII, like `String.toLower`). -/
def py_lower (s : String) : String :=
  ⟨s.data.map Char.toLower⟩

/-- Python `str.strip()`: drop leading and trailing whitespace. -/
def py_strip (s : String) : String :=
  ⟨(((s.data.dropWhile Char.isWhitespace).reverse).dropWhile Char.isWhitespace).reverse⟩

/-- Python `int(v)` guarded by `v.isdigit()` (`none` when empty or not all
digits). -/
def py_int (s : String) : Option Nat :=
  if s.data ≠ [] ∧ s.data.all Char.isDigit then
    some (s.data.foldl (fun n c => n * 10 + (c.toNat - 48)) 0)
  else none

/-- Python `str.startswith`. -/
def starts_with (s pre : String) : Bool :=
  pre.data.isPrefixOf s.data

/-- Lexicographic byte-wise comparison of character lists (the order SQLite
uses for TEXT, applied to case-folded keys for COLLATE NOCASE). -/
def chars_le : List Char → List Char → Bool
  | [], _ => true
  | _ :: _, [] => false
  | a :: as, b :: bs =>
    if a.val < b.val then true
    else if b.val < a.val then false
    else chars_le as bs

/-- Insert into a sorted list after all elements that compare `le` to the
new one (the stable insertion step). -/
def insert_le (le : α → α → Bool) (x : α) : List α → List α
  | [] => [x]
  | y :: ys => if le y x then y :: insert_le le x ys else x :: y :: ys

/-- Stable insertion sort; models a SQL ORDER BY. -/
def sort_by (le : α → α → Bool) (l : List α) : List α :=
  l.foldr (insert_le le) []


/-- A row of the `items` table. -/
structure Item where
  itemCode : String
  category : String
  number : Nat
  wmFilename : String
  wmUrl : String
  rawFilename : String
  rawUrl : String
  selectionMessageId : Nat
deriving DecidableEq

/-- A row of the `claims` table (`user_id` is NULL for guest claims). -/
structure ClaimRow where
  id : Nat
  claimedAt : String
  guildId : Nat
  threadId : Nat
  userId : Option Nat
  userTag : String
  reason : String
  category : String
  itemCode : String
  itemNumber : Nat
  wmFilename : String
  rawFilename : String
deriving DecidableEq

/-- A row of the `winners` table. `remaining` is an `Int` so that
non-negativity is a real property (sqlite INTEGER can go negative). -/
structure WinnerRow where
  userId : Nat
  reason : String
  remaining : Int
deriving DecidableEq

/-- A row of the `guest_winners` table. -/
structure GuestRow where
  guestTag : String
  reason : String
  remaining : Int
deriving DecidableEq

/-- The whole sqlite database.  `claims` is kept in ascending `id` order
(`id INTEGER PRIMARY KEY AUTOINCREMENT`); `nextClaimId` models the
autoincrement sequence, which `DELETE` does not reset. -/
structure DB where
  items : List Item
  winners : List WinnerRow
  guestWinners : List GuestRow
  claims : List ClaimRow
  nextClaimId : Nat
  settings : List (String × String)
deriving DecidableEq

/-- `get_setting`. -/
def get_setting (db : DB) (key : String) : Option String :=
  (db.settings.find? fun kv => decide (kv.1 = key)).map Prod.snd

/-- `set_setting` (INSERT ... ON CONFLICT(key) DO UPDATE). -/
def set_setting (db : DB) (key value : String) : DB :=
  if db.settings.any fun kv => decide (kv.1 = key) then
    { db with settings := db.settings.map fun kv => if kv.1 = key then (key, value) else kv }
  else
    { db with settings := db.settings ++ [(key, value)] }

/-- `clear_setting`. -/
def clear_setting (db : DB) (key : String) : DB :=
  { db with settings := db.settings.filter fun kv => decide (kv.1 ≠ key) }

/-- `get_active_thread_id`: the stored thread id, or 0 when absent or
not a digit string. -/
def get_active_thread_id (db : DB) : Nat :=
  match get_setting db "active_claims_thread_id" with
  | some v => (py_int v).getD 0
  | none => 0

/-- `get_winner_state`. -/
def get_winner_state (db : DB) (user_id : Nat) : Option (String × Int) :=
  (db.winners.find? fun w => decide (w.userId = user_id)).map fun w => (w.reason, w.remaining)

/-- `get_guest_winner`. -/
def get_guest_winner (db : DB) (guest_tag : String) : Option (String × Int) :=
  (db.guestWinners.find? fun g => decide (g.guestTag = guest_tag)).map fun g =>
    (g.reason, g.remaining)

/-- `upsert_guest_winner` (INSERT ... ON CONFLICT DO UPDATE). -/
def upsert_guest_winner (db : DB) (guest_tag reason : String) (remaining : Int) : DB :=
  if db.guestWinners.any fun g => decide (g.guestTag = guest_tag) then
    { db with guestWinners := db.guestWinners.map fun g =>
        if g.guestTag = guest_tag then { g with reason := reason, remaining := remaining } else g }
  else
    { db with guestWinners := db.guestWinners ++ [⟨guest_tag, reason, remaining⟩] }

/-- The database half of `set_member_winner_remaining` (the Winner-role
juggling on the Discord side is external I/O). -/
def set_member_winner_remaining (db : DB) (user_id : Nat) (reason : String)
    (remaining : Int) : DB :=
  if db.winners.any fun w => decide (w.userId = user_id) then
    { db with winners := db.winners.map fun w =>
        if w.userId = user_id then { w with reason := reason, remaining := remaining } else w }
  else
    { db with winners := db.winners ++ [⟨user_id, reason, remaining⟩] }

/-- `update_item_selection_message_id` (UPDATE items SET selection_message_id
WHERE item_code = upper(code)). -/
def update_item_selection_message_id (db : DB) (item_code : String) (message_id : Nat) : DB :=
  { db with items := db.items.map fun it =>
      if it.itemCode = py_upper item_code then { it with selectionMessageId := message_id } else it }

/-- `get_item` (SELECT ... WHERE item_code = upper(code), first row). -/
def get_item (db : DB) (item_code : String) : Option Item :=
  db.items.find? fun it => decide (it.itemCode = py_upper item_code)

/-- `get_item_by_selection_message`. -/
def get_item_by_selection_message (db : DB) (selection_message_id : Nat) : Option Item :=
  db.items.find? fun it => decide (it.selectionMessageId = selection_message_id)

/-- `get_raw_url_for_item`. -/
def get_raw_url_for_item (db : DB) (item_code : String) : Option String :=
  (db.items.find? fun it => decide (it.itemCode = py_upper item_code)).map Item.rawUrl

/-- `is_item_claimed`: SELECT 1 FROM claims WHERE item_code = upper(code)
AND thread_id = tid LIMIT 1. -/
def is_item_claimed (db : DB) (item_code : String) (thread_id : Nat) : Bool :=
  db.claims.any fun c => decide (c.itemCode = py_upper item_code) && decide (c.threadId = thread_id)

/-- `add_claim`: INSERT a new claim row (category and item code uppercased,
as in the source); `claimed_at` is the caller-supplied `now_utc_iso()`. -/
def add_claim (db : DB) (claimed_at : String) (guild_id thread_id : Nat) (user_id : Option Nat)
    (user_tag reason category item_code : String) (item_number : Nat)
    (wm_filename raw_filename : String) : DB :=
  let row : ClaimRow :=
    ⟨db.nextClaimId, claimed_at, guild_id, thread_id, user_id, user_tag, reason,
     py_upper category, py_upper item_code, item_number, wm_filename, raw_filename⟩
  { db with claims := db.claims ++ [row], nextClaimId := db.nextClaimId + 1 }

/-- `get_claim_for_item`: ORDER BY id DESC LIMIT 1; since `claims` is kept
in ascending id order this is the last matching row. -/
def get_claim_for_item (db : DB) (thread_id : Nat) (item_code : String) : Option ClaimRow :=
  (db.claims.filter fun c =>
    decide (c.threadId = thread_id) && decide (c.itemCode = py_upper item_code)).getLast?

/-- `delete_claim_by_id`. -/
def delete_claim_by_id (db : DB) (claim_id : Nat) : DB :=
  { db with claims := db.claims.filter fun c => decide (c.id ≠ claim_id) }

/-- `parse_item_code`: 4 characters, `N`/`S` then three digits,
normalized to upper case. -/
def parse_item_code (s : String) : Option String :=
  let t := py_upper (py_strip s)
  if t.length = 4 ∧ (t.front = 'N' ∨ t.front = 'S') ∧ (t.data.drop 1).all Char.isDigit then
    some t
  else none

/-- `category_name`. -/
def category_name (category : String) : String :=
  if py_upper category = "N" then "NSFW" else "SFW"

/-- `category_emoji`. -/
def category_emoji (category : String) : String :=
  if py_upper category = "N" then "🔞" else "🟦"

/-- `set_panic_meta`. -/
def set_panic_meta (db : DB) (enabled : Bool) (actor at_iso : String) : DB :=
  set_setting (set_setting (set_setting db "panic_mode" (if enabled then "1" else "0"))
    "panic_actor" actor) "panic_at" at_iso

/-- `get_panic_meta` (enabled flag, last actor, last timestamp). -/
def get_panic_meta (db : DB) : Bool × String × String :=
  (decide (get_setting db "panic_mode" = some "1"),
   (get_setting db "panic_actor").getD "Unknown",
   (get_setting db "panic_at").getD "Unknown")

/-- `list_unclaimed_items`: item codes of the category, ordered by number,
that have no claim in the thread. -/
def list_unclaimed_items (db : DB) (thread_id : Nat) (category : String) : List String :=
  let rows := db.items.filter fun it => decide (it.category = py_upper category)
  let ordered := sort_by (fun a b => decide (a.number ≤ b.number)) rows
  (ordered.map Item.itemCode).filter fun code => !is_item_claimed db code thread_id

/-- The raw-reaction payload fields the handler reads, plus the member data
that Discord resolves for the reacting user. -/
structure ReactionEvent where
  userId : Nat
  guildId : Nat
  channelId : Nat
  messageId : Nat
  emoji : String
  memberTag : String
  memberDisplay : String
deriving DecidableEq

/-- Per-event environment: the bot's own user id, the configured
`CLAIM_EMOJIS`, whether `bot.get_guild` / the member fetch succeed, and
`now_utc_iso()` at the time the event is processed. -/
structure BotEnv where
  botUserId : Nat
  claimEmojis : List String
  guildFound : Bool
  memberFetchOk : Bool
  eventTime : String
deriving DecidableEq

/-- Outcome of `on_raw_reaction_add`, one constructor per terminal branch. -/
inductive ReactionResult where
  | ignoredSelf
  | rejectNoSession
  | rejectBadEmoji
  | rejectNoGuild
  | rejectPanic
  | rejectUnresolvable
  | rejectNoWinner
  | rejectNoPicks
  | rejectAlreadyClaimed
  | rejectMemberFetch
  | committed
deriving DecidableEq

/-- `on_raw_reaction_add`: the reaction-claim event handler.  Checks run in
source order (self-reaction, active thread, emoji, guild, panic, item
resolution, winner state, picks, already-claimed, member fetch); the commit
inserts the claim, decrements the winner's picks by one and clears the
item's selection message id.  Message sends, reaction removal and DMs are
external I/O. -/
def on_raw_reaction_add (env : BotEnv) (db : DB) (p : ReactionEvent) :
    ReactionResult × DB :=
  if p.userId = env.botUserId then (.ignoredSelf, db) else
  let tid := get_active_thread_id db
  if tid = 0 then (.rejectNoSession, db) else
  if p.emoji ∉ env.claimEmojis then (.rejectBadEmoji, db) else
  if !env.guildFound then (.rejectNoGuild, db) else
  if (get_panic_meta db).1 then (.rejectPanic, db) else
  match get_item_by_selection_message db p.messageId with
  | none => (.rejectUnresolvable, db)
  | some item =>
    match get_winner_state db p.userId with
    | none => (.rejectNoWinner, db)
    | some st =>
      let reason := st.1
      let remaining := st.2
      if remaining ≤ 0 then (.rejectNoPicks, db) else
      if is_item_claimed db item.itemCode tid then (.rejectAlreadyClaimed, db) else
      if !env.memberFetchOk then (.rejectMemberFetch, db) else
      let db1 := add_claim db env.eventTime p.guildId tid (some p.userId) p.memberTag reason
        item.category item.itemCode item.number item.wmFilename item.rawFilename
      let db2 := set_member_winner_remaining db1 p.userId reason (remaining - 1)
      let db3 := update_item_selection_message_id db2 item.itemCode 0
      (.committed, db3)

/-- `repost_listing`: re-post the listing embed for an item and record the
fresh message id (the id the Discord send returns is a parameter). -/
def repost_listing (db : DB) (item_code : String) (new_message_id : Nat) : Bool × DB :=
  match get_item db item_code with
  | none => (false, db)
  | some item => (true, update_item_selection_message_id db item.itemCode new_message_id)

/-- `force_claim_discord` (used by `!random` and `!swap`): clears the
listing reference, inserts the claim, and optionally decrements the pick
count, clamping at zero with `max 0 (rem - 1)`. -/
def force_claim_discord (db : DB) (now : String) (guild_id member_id : Nat)
    (member_tag item_code reason : String) (decrement_pick : Bool) : DB :=
  let tid := get_active_thread_id db
  if tid = 0 then db else
  match get_item db item_code with
  | none => db
  | some item =>
    let db0 := if item.selectionMessageId ≠ 0 then
        update_item_selection_message_id db item.itemCode 0
      else db
    let db1 := add_claim db0 now guild_id tid (some member_id) member_tag reason
      item.category item.itemCode item.number item.wmFilename item.rawFilename
    if decrement_pick then
      match get_winner_state db1 member_id with
      | some st => set_member_winner_remaining db1 member_id st.1 (max 0 (st.2 - 1))
      | none => db1
    else db1

/-- `force_claim_guest` (used by `!randomguest` and `!guestclaim`). -/
def force_claim_guest (db : DB) (now : String) (guild_id : Nat)
    (guest_tag item_code reason : String) (decrement_pick : Bool) : DB :=
  let tid := get_active_thread_id db
  if tid = 0 then db else
  match get_item db item_code with
  | none => db
  | some item =>
    let db0 := if item.selectionMessageId ≠ 0 then
        update_item_selection_message_id db item.itemCode 0
      else db
    let db1 := add_claim db0 now guild_id tid none guest_tag reason
      item.category item.itemCode item.number item.wmFilename item.rawFilename
    if decrement_pick then
      match get_guest_winner db1 guest_tag with
      | some st => upsert_guest_winner db1 guest_tag st.1 (max 0 (st.2 - 1))
      | none => db1
    else db1

/-- Outcome of a staff command, one constructor per rejection message. -/
inductive CmdResult where
  | noPermission
  | noShow
  | invalidInput
  | notWinner
  | noPicks
  | alreadyClaimed
  | itemMissing
  | notOwner
  | noneRemaining
  | done
deriving DecidableEq

/-- `!assign`: staff-claims an item for a Discord user.  The pick decrement
is the inline SQL pair UPDATE remaining = remaining - 1 / DELETE WHERE
remaining <= 0. -/
def assign_cmd (db : DB) (now : String) (staff : Bool) (guild_id member_id : Nat)
    (member_tag item_code_arg : String) (reason_override : Option String) :
    CmdResult × DB :=
  if !staff then (.noPermission, db) else
  let tid := get_active_thread_id db
  if tid = 0 then (.noShow, db) else
  let item_code := (parse_item_code item_code_arg).getD (py_upper (py_strip item_code_arg))
  if item_code.isEmpty ∨ (item_code.front ≠ 'N' ∧ item_code.front ≠ 'S') then
    (.invalidInput, db) else
  match get_winner_state db member_id with
  | none => (.notWinner, db)
  | some st =>
    if st.2 ≤ 0 then (.noPicks, db) else
    let reason := match reason_override with
      | some r => py_strip r
      | none => st.1
    match db.items.find? fun it => decide (it.itemCode = item_code) with
    | none => (.itemMissing, db)
    | some item =>
      if db.claims.any fun c => decide (c.threadId = tid) && decide (c.itemCode = item_code) then
        (.alreadyClaimed, db) else
      let db1 := add_claim db now guild_id tid (some member_id) member_tag reason
        item.category item_code item.number item.wmFilename item.rawFilename
      let dec := db1.winners.map fun w =>
        if w.userId = member_id then { w with remaining := w.remaining - 1 } else w
      let kept := dec.filter fun w =>
        !(decide (w.userId = member_id) && decide (w.remaining ≤ 0))
      (.done, { db1 with winners := kept })

/-- `!random`: picks a random unclaimed item of the category; the RNG draw
is modelled by the index parameter `k`. -/
def random_cmd (db : DB) (now : String) (staff : Bool) (guild_id member_id : Nat)
    (member_tag category : String) (k : Nat) : CmdResult × DB :=
  if !staff then (.noPermission, db) else
  let cat := py_upper (py_strip category)
  if ¬(cat = "N" ∨ cat = "S") then (.invalidInput, db) else
  let tid := get_active_thread_id db
  if tid = 0 then (.noShow, db) else
  match get_winner_state db member_id with
  | none => (.notWinner, db)
  | some st =>
    if st.2 ≤ 0 then (.noPicks, db) else
    let unclaimed := list_unclaimed_items db tid cat
    if h : unclaimed.length = 0 then (.noneRemaining, db) else
    let pick := unclaimed.get ⟨k % unclaimed.length, Nat.mod_lt k (Nat.pos_of_ne_zero h)⟩
    (.done, force_claim_discord db now guild_id member_id member_tag pick st.1 true)

/-- `!randomguest`. -/
def randomguest_cmd (db : DB) (now : String) (staff : Bool) (guild_id : Nat)
    (guest_tag category : String) (k : Nat) : CmdResult × DB :=
  if !staff then (.noPermission, db) else
  let gt := py_strip guest_tag
  let cat := py_upper (py_strip category)
  if ¬(cat = "N" ∨ cat = "S") then (.invalidInput, db) else
  let tid := get_active_thread_id db
  if tid = 0 then (.noShow, db) else
  match get_guest_winner db gt with
  | none => (.notWinner, db)
  | some st =>
    if st.2 ≤ 0 then (.noPicks, db) else
    let unclaimed := list_unclaimed_items db tid cat
    if h : unclaimed.length = 0 then (.noneRemaining, db) else
    let pick := unclaimed.get ⟨k % unclaimed.length, Nat.mod_lt k (Nat.pos_of_ne_zero h)⟩
    (.done, force_claim_guest db now guild_id gt pick st.1 true)

/-- `!guestclaim`. -/
def guestclaim_cmd (db : DB) (now : String) (staff : Bool) (guild_id : Nat)
    (guest_tag item_code : String) : CmdResult × DB :=
  if !staff then (.noPermission, db) else
  let tid := get_active_thread_id db
  if tid = 0 then (.noShow, db) else
  let gt := py_strip guest_tag
  match parse_item_code item_code with
  | none => (.invalidInput, db)
  | some ic =>
    match get_guest_winner db gt with
    | none => (.notWinner, db)
    | some st =>
      if st.2 ≤ 0 then (.noPicks, db) else
      if is_item_claimed db ic tid then (.alreadyClaimed, db) else
      if (get_item db ic).isNone then (.itemMissing, db) else
      (.done, force_claim_guest db now guild_id gt ic st.1 true)

/-- `!unassign`: deletes the member's claim on the item, refunds one pick
(an absent winner row counts as zero picks) and reposts the listing. -/
def unassign_cmd (db : DB) (staff : Bool) (member_id : Nat) (item_code : String)
    (new_message_id : Nat) : CmdResult × DB :=
  if !staff then (.noPermission, db) else
  let tid := get_active_thread_id db
  if tid = 0 then (.noShow, db) else
  match parse_item_code item_code with
  | none => (.invalidInput, db)
  | some ic =>
    match get_claim_for_item db tid ic with
    | none => (.itemMissing, db)
    | some claim =>
      match claim.userId with
      | none => (.notOwner, db)
      | some uid =>
        if uid ≠ member_id then (.notOwner, db) else
        let db1 := delete_claim_by_id db claim.id
        let db2 := match get_winner_state db1 member_id with
          | some st => set_member_winner_remaining db1 member_id st.1 (st.2 + 1)
          | none => set_member_winner_remaining db1 member_id claim.reason 1
        (.done, (repost_listing db2 ic new_message_id).2)

/-- `!swap`: exchanges a member's claimed item for an unclaimed one of the
same category without touching the pick count. -/
def swap_cmd (db : DB) (now : String) (staff : Bool) (guild_id member_id : Nat)
    (member_tag old_item new_item : String) (new_message_id : Nat) : CmdResult × DB :=
  if !staff then (.noPermission, db) else
  let tid := get_active_thread_id db
  if tid = 0 then (.noShow, db) else
  match parse_item_code old_item, parse_item_code new_item with
  | some old_ic, some new_ic =>
    if old_ic.front ≠ new_ic.front then (.invalidInput, db) else
    (match get_claim_for_item db tid old_ic with
    | none => (.itemMissing, db)
    | some old_claim =>
      match old_claim.userId with
      | none => (.notOwner, db)
      | some uid =>
        if uid ≠ member_id then (.notOwner, db) else
        if is_item_claimed db new_ic tid then (.alreadyClaimed, db) else
        if (get_item db new_ic).isNone then (.itemMissing, db) else
        let db1 := delete_claim_by_id db old_claim.id
        let db2 := (repost_listing db1 old_ic new_message_id).2
        (.done,
          force_claim_discord db2 now guild_id member_id member_tag new_ic old_claim.reason false))
  | _, _ => (.invalidInput, db)

/-- `!winner`: additive grant of picks to a Discord user. -/
def winner_cmd (db : DB) (staff : Bool) (member_id : Nat) (amount : Int) (reason : String) :
    CmdResult × DB :=
  if !staff then (.noPermission, db) else
  if amount ≤ 0 then (.invalidInput, db) else
  let total := match get_winner_state db member_id with
    | some st => st.2 + amount
    | none => amount
  (.done, set_member_winner_remaining db member_id reason total)

/-- `!guestwinner`: additive grant of picks to a guest. -/
def guestwinner_cmd (db : DB) (staff : Bool) (guest_tag : String) (amount : Int)
    (reason : String) : CmdResult × DB :=
  if !staff then (.noPermission, db) else
  if amount ≤ 0 then (.invalidInput, db) else
  let gt := py_strip guest_tag
  let total := match get_guest_winner db gt with
    | some st => st.2 + amount
    | none => amount
  (.done, upsert_guest_winner db gt reason total)

/-- `CONFIRM_WINDOW_SECONDS`. -/
def CONFIRM_WINDOW_SECONDS : Nat := 60

/-- Key of the in-memory `_pending_confirms` dict: (guild id, user id, action). -/
abbrev ConfirmKey := Nat × Nat × String

/-- The in-memory `_pending_confirms` dict: key to expiry instant
(`time.monotonic` is modelled as a `Nat`). -/
abbrev ConfirmMap := List (ConfirmKey × Nat)

/-- The expiry stored for a key, with the dict default 0 for a missing key. -/
def token_expiry (tokens : ConfirmMap) (key : ConfirmKey) : Nat :=
  ((tokens.find? fun kv => decide (kv.1 = key)).map Prod.snd).getD 0

/-- Remove a key from the dict. -/
def delete_token (tokens : ConfirmMap) (key : ConfirmKey) : ConfirmMap :=
  tokens.filter fun kv => decide (kv.1 ≠ key)

/-- `_needs_confirm`: if an unexpired token exists, consume it and report
`false` (proceed); otherwise store a fresh token expiring
`CONFIRM_WINDOW_SECONDS` from now and report `true` (show the warning). -/
def needs_confirm (tokens : ConfirmMap) (now : Nat) (guild_id user_id : Nat)
    (action : String) : Bool × ConfirmMap :=
  let key : ConfirmKey := (guild_id, user_id, action)
  let exp := token_expiry tokens key
  if now < exp then
    (false, delete_token tokens key)
  else
    (true, delete_token tokens key ++ [(key, now + CONFIRM_WINDOW_SECONDS)])

/-- Outcome of a gated destructive command. -/
inductive GateResult where
  | noPermission
  | blockedActiveShow
  | badParent
  | needsConfirmation
  | done
deriving DecidableEq

/-- The table wipe shared by `!wipe` and `!newshow` (DELETE FROM items,
winners, guest_winners, claims, settings; the autoincrement sequence is
not reset). -/
def wipe_tables (db : DB) : DB :=
  { db with items := [], winners := [], guestWinners := [], claims := [], settings := [] }

/-- `!wipe`: refused while a show is active; otherwise gated by the
confirmation window unless the literal CONFIRM argument is given. -/
def wipe_cmd (db : DB) (tokens : ConfirmMap) (staff : Bool) (confirm : Option String)
    (guild_id user_id now : Nat) : GateResult × DB × ConfirmMap :=
  if !staff then (.noPermission, db, tokens) else
  if get_active_thread_id db ≠ 0 then (.blockedActiveShow, db, tokens) else
  if py_upper (confirm.getD "") ≠ "CONFIRM" then
    let nc := needs_confirm tokens now guild_id user_id "wipe"
    if nc.1 then (.needsConfirmation, db, nc.2)
    else (.done, wipe_tables db, nc.2)
  else (.done, wipe_tables db, tokens)

/-- `!newshow`: wipes all show state and records the fresh claims thread id
(the id of the thread the Discord side creates is a parameter); requires the
configured parent channel to be a text channel. -/
def newshow_cmd (db : DB) (tokens : ConfirmMap) (staff : Bool) (confirm : Option String)
    (guild_id user_id now : Nat) (parent_ok : Bool) (new_thread_id : Nat) :
    GateResult × DB × ConfirmMap :=
  if !staff then (.noPermission, db, tokens) else
  let proceed := fun (toks : ConfirmMap) =>
    if !parent_ok then (GateResult.badParent, db, toks)
    else (GateResult.done,
      set_setting (wipe_tables db) "active_claims_thread_id" (toString new_thread_id), toks)
  if py_upper (confirm.getD "") ≠ "CONFIRM" then
    let nc := needs_confirm tokens now guild_id user_id "newshow"
    if nc.1 then (.needsConfirmation, db, nc.2)
    else proceed nc.2
  else proceed tokens

/-- `!panic`: enables panic mode (channel locking is external I/O). -/
def panic_cmd (db : DB) (tokens : ConfirmMap) (staff : Bool) (confirm : Option String)
    (guild_id user_id now : Nat) (actor now_iso : String) : GateResult × DB × ConfirmMap :=
  if !staff then (.noPermission, db, tokens) else
  if py_upper (confirm.getD "") ≠ "CONFIRM" then
    let nc := needs_confirm tokens now guild_id user_id "panic"
    if nc.1 then (.needsConfirmation, db, nc.2)
    else (.done, set_panic_meta db true actor now_iso, nc.2)
  else (.done, set_panic_meta db true actor now_iso, tokens)

/-- `!endshow`: clears the active thread pointer (sorting is not invoked by
the source despite its docstring; channel locking and thread archiving are
external I/O). -/
def endshow_cmd (db : DB) (tokens : ConfirmMap) (staff : Bool) (confirm : Option String)
    (guild_id user_id now : Nat) : GateResult × DB × ConfirmMap :=
  if !staff then (.noPermission, db, tokens) else
  if py_upper (confirm.getD "") ≠ "CONFIRM" then
    let nc := needs_confirm tokens now guild_id user_id "endshow"
    if nc.1 then (.needsConfirmation, db, nc.2)
    else (.done, clear_setting db "active_claims_thread_id", nc.2)
  else (.done, clear_setting db "active_claims_thread_id", tokens)

/-- A message on the claims-thread log surface. -/
structure Msg where
  isBot : Bool
  content : String
deriving DecidableEq

/-- `is_bot_claim_message`: the fixed content marker that identifies the
bot's claim-announcement posts. -/
def is_bot_claim_message (m : Msg) : Bool :=
  m.isBot && starts_with m.content "✅ **Card Claimed"

/-- A row of the `get_claims_for_thread` query
(`COALESCE(user_id, 0) as user_id` turns guest rows into user id 0). -/
structure SortRow where
  userTag : String
  userId : Nat
  category : String
  itemCode : String
  itemNumber : Nat
  wmFilename : String
  rawFilename : String
  claimedAt : String
  reason : String
deriving DecidableEq

/-- The ORDER BY user_tag COLLATE NOCASE, item_number ASC comparison. -/
def sort_row_le (a b : SortRow) : Bool :=
  let x := (py_lower a.userTag).data
  let y := (py_lower b.userTag).data
  if x = y then decide (a.itemNumber ≤ b.itemNumber) else chars_le x y

/-- `get_claims_for_thread`. -/
def get_claims_for_thread (db : DB) (thread_id : Nat) : List SortRow :=
  ((db.claims.filter fun c => decide (c.threadId = thread_id)).map fun c =>
    ⟨c.userTag, c.userId.getD 0, c.category, c.itemCode, c.itemNumber, c.wmFilename,
     c.rawFilename, c.claimedAt, c.reason⟩) |> sort_by sort_row_le

/-- Python truthiness of an optional string (`None` and `""` are falsy). -/
def py_truthy (o : Option String) : Option String :=
  match o with
  | some s => if s.isEmpty then none else some s
  | none => none

/-- The per-claim announcement text rebuilt by `!sort`. -/
def sort_claim_text (db : DB) (members : Nat → Option String) (r : SortRow) : String :=
  let raw_url := py_truthy (get_raw_url_for_item db r.itemCode)
  let display2 := if r.userId ≠ 0 then (members r.userId).getD r.userTag else r.userTag
  "✅ **Card Claimed**\n- **User:** `" ++ display2 ++ "`\n- **Category:** " ++
    category_emoji r.category ++ " " ++ category_name r.category ++ "\n- **Reason:** " ++
    r.reason ++ "\n- **Item:** Item #" ++ r.itemCode ++ "\n- **WM Filename:** " ++
    r.wmFilename ++ "\n- **RAW Filename:** " ++ r.rawFilename ++
    "\n- **Timestamp (UTC):** " ++ r.claimedAt ++ "\n- **RAW Link:** " ++
    (raw_url.getD "(missing)")

/-- The two thread sends the rebuild loop performs per claim row: the bare
announcement, then (from the second, "send robustly" block of the source) a
copy with an extra RAW-link line appended. -/
def sort_row_posts (db : DB) (members : Nat → Option String) (r : SortRow) : List Msg :=
  let text := sort_claim_text db members r
  let raw_url := py_truthy (get_raw_url_for_item db r.itemCode)
  [⟨true, text⟩,
   ⟨true, text ++ (match raw_url with
     | some u => "\n- **RAW Link:** " ++ u
     | none => "\n- **RAW Link:** *(missing)*")⟩]

/-- The grouped-claimant header line. -/
def sort_header (db : DB) (uid : Nat) (display : String)
    (rows : List SortRow) : String :=
  let st := if uid ≠ 0 then get_winner_state db uid else none
  let remaining := (st.map Prod.snd).getD 0
  let reason_live := st.map Prod.fst
  let base := "👤 **" ++ display ++ "** — Claimed: **" ++ toString rows.length ++ "**"
  if 0 < remaining then
    base ++ " | Picks remaining: **" ++ toString remaining ++ "**" ++
      (match reason_live with
       | some rl => if rl.isEmpty then "" else " | Reason: " ++ rl
       | none => "")
  else base

/-- The trailing "picks remaining" sections of `!sort`
(winners / guests WHERE remaining > 0 ORDER BY remaining DESC). -/
def sort_remaining_posts (db : DB) (members : Nat → Option String) : List Msg :=
  let winners_left := sort_by (fun a b => decide (b.remaining ≤ a.remaining))
    (db.winners.filter fun w => decide (0 < w.remaining))
  let winner_posts : List Msg := if winners_left.isEmpty then [] else
    ⟨true, "🏁 **Users with picks remaining**"⟩ ::
      winners_left.map fun w =>
        let name := match members w.userId with
          | some _ => "<@" ++ toString w.userId ++ ">"
          | none => "`" ++ toString w.userId ++ "`"
        ⟨true, "- " ++ name ++ ": **" ++ toString w.remaining ++ "** remaining | Reason: " ++
          w.reason⟩
  let guests_left := sort_by (fun a b => decide (b.remaining ≤ a.remaining))
    (db.guestWinners.filter fun g => decide (0 < g.remaining))
  let guest_posts : List Msg := if guests_left.isEmpty then [] else
    ⟨true, "🏁 **Guests with picks remaining**"⟩ ::
      guests_left.map fun g =>
        ⟨true, "- `" ++ g.guestTag ++ "`: **" ++ toString g.remaining ++ "** remaining | Reason: " ++
          g.reason⟩
  winner_posts ++ guest_posts

/-- Everything `!sort` posts after the deletion pass.  NOTE, faithful to the
source: the grouping statements of `sort_cmd` are indented one level too
shallow, so the `for row in claims` loop only rebinds its locals and the
grouping runs once, after the loop, over the final row of the sorted claim
list; `grouped` therefore always holds exactly that one row. -/
def sort_emitted (db : DB) (members : Nat → Option String) : List Msg :=
  let tid := get_active_thread_id db
  let claims := get_claims_for_thread db tid
  match claims.getLast? with
  | none => []
  | some last_row =>
    let uid := last_row.userId
    let display := if uid ≠ 0 then (members uid).getD last_row.userTag else last_row.userTag
    let rows := [last_row]
    ⟨true, "🗂️ **Sorted Claim Log (rebuilt by bot)**\n*(RAW images re-attached per claim)*"⟩ ::
      ⟨true, sort_header db uid display rows⟩ ::
      ((rows.map (sort_row_posts db members)).flatten ++ sort_remaining_posts db members)

/-- `!sort`: delete every message matching the claim-announcement marker,
then re-emit the rebuilt log from the ledger. -/
def sort_cmd (db : DB) (members : Nat → Option String) (staff : Bool)
    (surface : List Msg) : List Msg :=
  if !staff then surface else
  if get_active_thread_id db = 0 then surface else
  (surface.filter fun m => !is_bot_claim_message m) ++ sort_emitted db members

/-- One ledger-mutating operation, carrying the external inputs it is
invoked with (actor staffness, arguments, timestamps, RNG draw, fresh
message ids). -/
inductive ClaimOp where
  | reaction (env : BotEnv) (p : ReactionEvent)
  | assign (now : String) (staff : Bool) (guildId memberId : Nat)
      (memberTag itemCode : String) (reasonOverride : Option String)
  | guestclaim (now : String) (staff : Bool) (guildId : Nat) (guestTag itemCode : String)
  | random (now : String) (staff : Bool) (guildId memberId : Nat)
      (memberTag category : String) (k : Nat)
  | randomguest (now : String) (staff : Bool) (guildId : Nat)
      (guestTag category : String) (k : Nat)
  | swap (now : String) (staff : Bool) (guildId memberId : Nat)
      (memberTag oldItem newItem : String) (newMessageId : Nat)
  | unassign (staff : Bool) (memberId : Nat) (itemCode : String) (newMessageId : Nat)
  | winner (staff : Bool) (memberId : Nat) (amount : Int) (reason : String)
  | guestwinner (staff : Bool) (guestTag : String) (amount : Int) (reason : String)

/-- The ledger effect of one operation. -/
def step (db : DB) (op : ClaimOp) : DB :=
  match op with
  | .reaction env p => (on_raw_reaction_add env db p).2
  | .assign now staff gid mid tag ic ro => (assign_cmd db now staff gid mid tag ic ro).2
  | .guestclaim now staff gid gt ic => (guestclaim_cmd db now staff gid gt ic).2
  | .random now staff gid mid tag cat k => (random_cmd db now staff gid mid tag cat k).2
  | .randomguest now staff gid gt cat k => (randomguest_cmd db now staff gid gt cat k).2
  | .swap now staff gid mid tag oldi newi nmid =>
      (swap_cmd db now staff gid mid tag oldi newi nmid).2
  | .unassign staff mid ic nmid => (unassign_cmd db staff mid ic nmid).2
  | .winner staff mid amount reason => (winner_cmd db staff mid amount reason).2
  | .guestwinner staff gt amount reason => (guestwinner_cmd db staff gt amount reason).2

/-- At most one live claim per (thread id, item code): no two rows of the
`claims` table agree on both. -/
def ClaimsOK (l : List ClaimRow) : Prop :=
  l.Pairwise fun a b => ¬(a.threadId = b.threadId ∧ a.itemCode = b.itemCode)

instance (l : List ClaimRow) : Decidable (ClaimsOK l) := by
  unfold ClaimsOK
  infer_instance

/-- All pick counters (winners and guests) are non-negative. -/
def LedgerOK (db : DB) : Prop :=
  (∀ w ∈ db.winners, 0 ≤ w.remaining) ∧ (∀ g ∈ db.guestWinners, 0 ≤ g.remaining)

instance (db : DB) : Decidable (LedgerOK db) := by
  unfold LedgerOK
  infer_instance

/-! ### Small projection lemmas: which table each helper touches -/

@[simp] theorem set_setting_items (db : DB) (k v : String) :
    (set_setting db k v).items = db.items := by
  unfold set_setting; split <;> rfl

@[simp] theorem set_setting_winners (db : DB) (k v : String) :
    (set_setting db k v).winners = db.winners := by
  unfold set_setting; split <;> rfl

@[simp] theorem set_setting_guestWinners (db : DB) (k v : String) :
    (set_setting db k v).guestWinners = db.guestWinners := by
  unfold set_setting; split <;> rfl

@[simp] theorem set_setting_claims (db : DB) (k v : String) :
    (set_setting db k v).claims = db.claims := by
  unfold set_setting; split <;> rfl

@[simp] theorem set_setting_nextClaimId (db : DB) (k v : String) :
    (set_setting db k v).nextClaimId = db.nextClaimId := by
  unfold set_setting; split <;> rfl

@[simp] theorem clear_setting_items (db : DB) (k : String) :
    (clear_setting db k).items = db.items := rfl

@[simp] theorem clear_setting_winners (db : DB) (k : String) :
    (clear_setting db k).winners = db.winners := rfl

@[simp] theorem clear_setting_guestWinners (db : DB) (k : String) :
    (clear_setting db k).guestWinners = db.guestWinners := rfl

@[simp] theorem clear_setting_claims (db : DB) (k : String) :
    (clear_setting db k).claims = db.claims := rfl

@[simp] theorem clear_setting_nextClaimId (db : DB) (k : String) :
    (clear_setting db k).nextClaimId = db.nextClaimId := rfl

@[simp] theorem set_member_winner_remaining_items (db : DB) (u : Nat) (r : String) (n : Int) :
    (set_member_winner_remaining db u r n).items = db.items := by
  unfold set_member_winner_remaining; split <;> rfl

@[simp] theorem set_member_winner_remaining_guestWinners (db : DB) (u : Nat) (r : String)
    (n : Int) : (set_member_winner_remaining db u r n).guestWinners = db.guestWinners := by
  unfold set_member_winner_remaining; split <;> rfl

@[simp] theorem set_member_winner_remaining_claims (db : DB) (u : Nat) (r : String) (n : Int) :
    (set_member_winner_remaining db u r n).claims = db.claims := by
  unfold set_member_winner_remaining; split <;> rfl

@[simp] theorem set_member_winner_remaining_nextClaimId (db : DB) (u : Nat) (r : String)
    (n : Int) : (set_member_winner_remaining db u r n).nextClaimId = db.nextClaimId := by
  unfold set_member_winner_remaining; split <;> rfl

@[simp] theorem set_member_winner_remaining_settings (db : DB) (u : Nat) (r : String)
    (n : Int) : (set_member_winner_remaining db u r n).settings = db.settings := by
  unfold set_member_winner_remaining; split <;> rfl

@[simp] theorem upsert_guest_winner_items (db : DB) (g r : String) (n : Int) :
    (upsert_guest_winner db g r n).items = db.items := by
  unfold upsert_guest_winner; split <;> rfl

@[simp] theorem upsert_guest_winner_winners (db : DB) (g r : String) (n : Int) :
    (upsert_guest_winner db g r n).winners = db.winners := by
  unfold upsert_guest_winner; split <;> rfl

@[simp] theorem upsert_guest_winner_claims (db : DB) (g r : String) (n : Int) :
    (upsert_guest_winner db g r n).claims = db.claims := by
  unfold upsert_guest_winner; split <;> rfl

@[simp] theorem upsert_guest_winner_nextClaimId (db : DB) (g r : String) (n : Int) :
    (upsert_guest_winner db g r n).nextClaimId = db.nextClaimId := by
  unfold upsert_guest_winner; split <;> rfl

@[simp] theorem upsert_guest_winner_settings (db : DB) (g r : String) (n : Int) :
    (upsert_guest_winner db g r n).settings = db.settings := by
  unfold upsert_guest_winner; split <;> rfl

@[simp] theorem update_item_selection_message_id_winners (db : DB) (c : String) (m : Nat) :
    (update_item_selection_message_id db c m).winners = db.winners := rfl

@[simp] theorem update_item_selection_message_id_guestWinners (db : DB) (c : String) (m : Nat) :
    (update_item_selection_message_id db c m).guestWinners = db.guestWinners := rfl

@[simp] theorem update_item_selection_message_id_claims (db : DB) (c : String) (m : Nat) :
    (update_item_selection_message_id db c m).claims = db.claims := rfl

@[simp] theorem update_item_selection_message_id_nextClaimId (db : DB) (c : String) (m : Nat) :
    (update_item_selection_message_id db c m).nextClaimId = db.nextClaimId := rfl

@[simp] theorem update_item_selection_message_id_settings (db : DB) (c : String) (m : Nat) :
    (update_item_selection_message_id db c m).settings = db.settings := rfl

@[simp] theorem add_claim_items (db : DB) (ts : String) (g t : Nat) (u : Option Nat)
    (tag r cat code : String) (n : Nat) (wm raw : String) :
    (add_claim db ts g t u tag r cat code n wm raw).items = db.items := rfl

@[simp] theorem add_claim_winners (db : DB) (ts : String) (g t : Nat) (u : Option Nat)
    (tag r cat code : String) (n : Nat) (wm raw : String) :
    (add_claim db ts g t u tag r cat code n wm raw).winners = db.winners := rfl

@[simp] theorem add_claim_guestWinners (db : DB) (ts : String) (g t : Nat) (u : Option Nat)
    (tag r cat code : String) (n : Nat) (wm raw : String) :
    (add_claim db ts g t u tag r cat code n wm raw).guestWinners = db.guestWinners := rfl

@[simp] theorem add_claim_settings (db : DB) (ts : String) (g t : Nat) (u : Option Nat)
    (tag r cat code : String) (n : Nat) (wm raw : String) :
    (add_claim db ts g t u tag r cat code n wm raw).settings = db.settings := rfl

theorem add_claim_claims (db : DB) (ts : String) (g t : Nat) (u : Option Nat)
    (tag r cat code : String) (n : Nat) (wm raw : String) :
    (add_claim db ts g t u tag r cat code n wm raw).claims
      = db.claims ++ [⟨db.nextClaimId, ts, g, t, u, tag, r, py_upper cat, py_upper code, n,
          wm, raw⟩] := rfl

@[simp] theorem delete_claim_by_id_items (db : DB) (i : Nat) :
    (delete_claim_by_id db i).items = db.items := rfl

@[simp] theorem delete_claim_by_id_winners (db : DB) (i : Nat) :
    (delete_claim_by_id db i).winners = db.winners := rfl

@[simp] theorem delete_claim_by_id_guestWinners (db : DB) (i : Nat) :
    (delete_claim_by_id db i).guestWinners = db.guestWinners := rfl

@[simp] theorem delete_claim_by_id_settings (db : DB) (i : Nat) :
    (delete_claim_by_id db i).settings = db.settings := rfl

@[simp] theorem delete_claim_by_id_nextClaimId (db : DB) (i : Nat) :
    (delete_claim_by_id db i).nextClaimId = db.nextClaimId := rfl

theorem repost_listing_snd_winners (db : DB) (c : String) (m : Nat) :
    (repost_listing db c m).2.winners = db.winners := by
  unfold repost_listing; split <;> simp

theorem repost_listing_snd_guestWinners (db : DB) (c : String) (m : Nat) :
    (repost_listing db c m).2.guestWinners = db.guestWinners := by
  unfold repost_listing; split <;> simp

theorem repost_listing_snd_claims (db : DB) (c : String) (m : Nat) :
    (repost_listing db c m).2.claims = db.claims := by
  unfold repost_listing; split <;> simp

theorem repost_listing_snd_settings (db : DB) (c : String) (m : Nat) :
    (repost_listing db c m).2.settings = db.settings := by
  unfold repost_listing; split <;> simp

/-! ### Reads depend only on their own table -/

theorem get_setting_congr {db1 db2 : DB} (h : db1.settings = db2.settings) (k : String) :
    get_setting db1 k = get_setting db2 k := by
  unfold get_setting; rw [h]

theorem get_active_thread_id_congr {db1 db2 : DB} (h : db1.settings = db2.settings) :
    get_active_thread_id db1 = get_active_thread_id db2 := by
  unfold get_active_thread_id; rw [get_setting_congr h]

theorem get_winner_state_congr {db1 db2 : DB} (h : db1.winners = db2.winners) (u : Nat) :
    get_winner_state db1 u = get_winner_state db2 u := by
  unfold get_winner_state; rw [h]

theorem get_guest_winner_congr {db1 db2 : DB} (h : db1.guestWinners = db2.guestWinners)
    (g : String) : get_guest_winner db1 g = get_guest_winner db2 g := by
  unfold get_guest_winner; rw [h]

theorem get_item_congr {db1 db2 : DB} (h : db1.items = db2.items) (c : String) :
    get_item db1 c = get_item db2 c := by
  unfold get_item; rw [h]

theorem is_item_claimed_congr {db1 db2 : DB} (h : db1.claims = db2.claims) (c : String)
    (t : Nat) : is_item_claimed db1 c t = is_item_claimed db2 c t := by
  unfold is_item_claimed; rw [h]

/-! ### Upper-casing is idempotent (needed to match lookup-before-insert
guards against the uppercased insert in `add_claim`) -/

theorem char_toNat_ofNat (m : Nat) (h : m.isValidChar) : (Char.ofNat m).toNat = m := by
  simp [Char.ofNat, h, Char.ofNatAux, Char.toNat, UInt32.toNat]

theorem char_toUpper_idem (c : Char) : c.toUpper.toUpper = c.toUpper := by
  unfold Char.toUpper
  by_cases h : c.toNat ≥ 97 ∧ c.toNat ≤ 122
  · rw [if_pos h]
    have hv : (c.toNat - 32).isValidChar := by
      left
      omega
    have ht : (Char.ofNat (c.toNat - 32)).toNat = c.toNat - 32 := char_toNat_ofNat _ hv
    rw [if_neg]
    rw [ht]
    omega
  · rw [if_neg h, if_neg h]

theorem py_upper_idem (s : String) : py_upper (py_upper s) = py_upper s := by
  unfold py_upper
  refine congrArg String.mk ?_
  show (s.data.map Char.toUpper).map Char.toUpper = s.data.map Char.toUpper
  rw [List.map_map]
  exact List.map_congr_left fun a _ => char_toUpper_idem a

theorem parse_item_code_upper {s t : String} (h : parse_item_code s = some t) :
    py_upper t = t := by
  unfold parse_item_code at h
  simp only [] at h
  split at h
  · cases h
    exact py_upper_idem _
  · cases h

theorem parse_getD_upper (s : String) :
    py_upper ((parse_item_code s).getD (py_upper (py_strip s)))
      = (parse_item_code s).getD (py_upper (py_strip s)) := by
  cases h : parse_item_code s with
  | none => exact py_upper_idem _
  | some t => exact parse_item_code_upper h

/-! ### ClaimsOK machinery -/

theorem claimsOK_filter {l : List ClaimRow} (p : ClaimRow → Bool) (h : ClaimsOK l) :
    ClaimsOK (l.filter p) :=
  h.sublist (List.filter_sublist l)

theorem is_item_claimed_eq_false_iff {db : DB} {code : String} {tid : Nat} :
    is_item_claimed db code tid = false
      ↔ ∀ c ∈ db.claims, ¬(c.threadId = tid ∧ c.itemCode = py_upper code) := by
  unfold is_item_claimed
  simp only [List.any_eq_false, Bool.and_eq_true, decide_eq_true_eq, not_and]
  constructor
  · intro h c hc ht hcode
    exact (h c hc) hcode ht
  · intro h c hc hcode ht
    exact (h c hc) ht hcode

theorem claimsOK_append {l : List ClaimRow} {row : ClaimRow} (h : ClaimsOK l)
    (hnew : ∀ c ∈ l, ¬(c.threadId = row.threadId ∧ c.itemCode = row.itemCode)) :
    ClaimsOK (l ++ [row]) := by
  rw [ClaimsOK, List.pairwise_append]
  refine ⟨h, List.pairwise_singleton _ _, ?_⟩
  intro a ha b hb
  rw [List.mem_singleton] at hb
  subst hb
  exact hnew a ha

theorem claimsOK_add_claim {db : DB} {thread_id : Nat} {item_code : String}
    (ts : String) (g : Nat) (u : Option Nat) (tag r cat : String) (n : Nat)
    (wm raw : String) (h : ClaimsOK db.claims)
    (hnew : ∀ c ∈ db.claims, ¬(c.threadId = thread_id ∧ c.itemCode = py_upper item_code)) :
    ClaimsOK (add_claim db ts g thread_id u tag r cat item_code n wm raw).claims := by
  rw [add_claim_claims]
  exact claimsOK_append h hnew

theorem list_unclaimed_not_claimed {db : DB} {tid : Nat} {cat code : String}
    (h : code ∈ list_unclaimed_items db tid cat) :
    is_item_claimed db code tid = false := by
  unfold list_unclaimed_items at h
  rw [List.mem_filter] at h
  simpa using h.2

theorem is_item_claimed_delete_false {db : DB} {code : String} {tid i : Nat}
    (h : is_item_claimed db code tid = false) :
    is_item_claimed (delete_claim_by_id db i) code tid = false := by
  rw [is_item_claimed_eq_false_iff] at h ⊢
  intro c hc
  exact h c (List.mem_of_mem_filter hc)

theorem get_item_code {db : DB} {s : String} {item : Item} (h : get_item db s = some item) :
    item.itemCode = py_upper s := by
  have := List.find?_some h
  simpa using this

theorem force_claim_discord_claimsOK (db : DB) (now : String) (gid mid : Nat)
    (tag item_code reason : String) (dec : Bool) (h : ClaimsOK db.claims)
    (hguard : is_item_claimed db item_code (get_active_thread_id db) = false) :
    ClaimsOK (force_claim_discord db now gid mid tag item_code reason dec).claims := by
  unfold force_claim_discord
  simp only []
  split
  · exact h
  split
  · exact h
  next item hit =>
    have hcode : item.itemCode = py_upper item_code := get_item_code hit
    have hnew : ∀ c ∈ db.claims,
        ¬(c.threadId = get_active_thread_id db ∧ c.itemCode = py_upper item.itemCode) := by
      rw [hcode, py_upper_idem]
      exact is_item_claimed_eq_false_iff.mp hguard
    have hX : ClaimsOK (add_claim
        (if item.selectionMessageId ≠ 0 then
          update_item_selection_message_id db item.itemCode 0 else db)
        now gid (get_active_thread_id db) (some mid) tag reason item.category item.itemCode
        item.number item.wmFilename item.rawFilename).claims := by
      rw [add_claim_claims]
      have hc0 : (if item.selectionMessageId ≠ 0 then
          update_item_selection_message_id db item.itemCode 0 else db).claims = db.claims := by
        split <;> rfl
      rw [hc0]
      exact claimsOK_append h hnew
    split
    · split
      · rw [set_member_winner_remaining_claims]
        exact hX
      · exact hX
    · exact hX

theorem force_claim_guest_claimsOK (db : DB) (now : String) (gid : Nat)
    (guest_tag item_code reason : String) (dec : Bool) (h : ClaimsOK db.claims)
    (hguard : is_item_claimed db item_code (get_active_thread_id db) = false) :
    ClaimsOK (force_claim_guest db now gid guest_tag item_code reason dec).claims := by
  unfold force_claim_guest
  simp only []
  split
  · exact h
  split
  · exact h
  next item hit =>
    have hcode : item.itemCode = py_upper item_code := get_item_code hit
    have hnew : ∀ c ∈ db.claims,
        ¬(c.threadId = get_active_thread_id db ∧ c.itemCode = py_upper item.itemCode) := by
      rw [hcode, py_upper_idem]
      exact is_item_claimed_eq_false_iff.mp hguard
    have hX : ClaimsOK (add_claim
        (if item.selectionMessageId ≠ 0 then
          update_item_selection_message_id db item.itemCode 0 else db)
        now gid (get_active_thread_id db) none guest_tag reason item.category item.itemCode
        item.number item.wmFilename item.rawFilename).claims := by
      rw [add_claim_claims]
      have hc0 : (if item.selectionMessageId ≠ 0 then
          update_item_selection_message_id db item.itemCode 0 else db).claims = db.claims := by
        split <;> rfl
      rw [hc0]
      exact claimsOK_append h hnew
    split
    · split
      · rw [upsert_guest_winner_claims]
        exact hX
      · exact hX
    · exact hX

theorem on_raw_reaction_add_claimsOK (env : BotEnv) (db : DB) (p : ReactionEvent)
    (h : ClaimsOK db.claims) : ClaimsOK (on_raw_reaction_add env db p).2.claims := by
  unfold on_raw_reaction_add
  simp only []
  split
  · exact h
  split
  · exact h
  split
  · exact h
  split
  · exact h
  split
  · exact h
  split
  · exact h
  next item hitem =>
    split
    · exact h
    next st hst =>
      split
      · exact h
      split
      · exact h
      next hcl =>
        split
        · exact h
        have hguard : is_item_claimed db item.itemCode (get_active_thread_id db) = false :=
          Bool.not_eq_true _ ▸ Bool.of_not_eq_true hcl
        have hnew : ∀ c ∈ db.claims,
            ¬(c.threadId = get_active_thread_id db ∧ c.itemCode = py_upper item.itemCode) :=
          is_item_claimed_eq_false_iff.mp hguard
        show ClaimsOK (update_item_selection_message_id _ _ _).claims
        rw [update_item_selection_message_id_claims, set_member_winner_remaining_claims,
          add_claim_claims]
        exact claimsOK_append h hnew

@[simp] theorem db_with_winners_claims (db : DB) (w : List WinnerRow) :
    (DB.mk db.items w db.guestWinners db.claims db.nextClaimId db.settings).claims
      = db.claims := rfl

theorem assign_cmd_claimsOK (db : DB) (now : String) (staff : Bool) (gid mid : Nat)
    (tag ica : String) (ro : Option String) (h : ClaimsOK db.claims) :
    ClaimsOK (assign_cmd db now staff gid mid tag ica ro).2.claims := by
  unfold assign_cmd
  simp only []
  split
  · exact h
  split
  · exact h
  split
  · exact h
  split
  · exact h
  next st hst =>
    split
    · exact h
    split
    · exact h
    next item hitem =>
      split
      · exact h
      next hcl =>
        have hup := parse_getD_upper ica
        have hnew : ∀ c ∈ db.claims,
            ¬(c.threadId = get_active_thread_id db ∧
              c.itemCode = py_upper ((parse_item_code ica).getD (py_upper (py_strip ica)))) := by
          rw [hup]
          intro c hc hcon
          apply hcl
          rw [List.any_eq_true]
          refine ⟨c, hc, ?_⟩
          simp [hcon.1, hcon.2]
        show ClaimsOK (DB.mk _ _ _ _ _ _).claims
        rw [db_with_winners_claims, add_claim_claims]
        exact claimsOK_append h hnew

theorem guestclaim_cmd_claimsOK (db : DB) (now : String) (staff : Bool) (gid : Nat)
    (gt ica : String) (h : ClaimsOK db.claims) :
    ClaimsOK (guestclaim_cmd db now staff gid gt ica).2.claims := by
  unfold guestclaim_cmd
  simp only []
  split
  · exact h
  split
  · exact h
  split
  · exact h
  next ic hic =>
    split
    · exact h
    next st hst =>
      split
      · exact h
      split
      · exact h
      next hcl =>
        split
        · exact h
        exact force_claim_guest_claimsOK db now gid (py_strip gt) ic st.1 true h
          (Bool.of_not_eq_true hcl)

theorem random_cmd_claimsOK (db : DB) (now : String) (staff : Bool) (gid mid : Nat)
    (tag cat : String) (k : Nat) (h : ClaimsOK db.claims) :
    ClaimsOK (random_cmd db now staff gid mid tag cat k).2.claims := by
  unfold random_cmd
  simp only []
  split
  · exact h
  split
  · exact h
  split
  · exact h
  split
  · exact h
  next st hst =>
    split
    · exact h
    split
    · exact h
    next hlen =>
      exact force_claim_discord_claimsOK db now gid mid tag _ st.1 true h
        (list_unclaimed_not_claimed (List.get_mem _ _ _))

theorem randomguest_cmd_claimsOK (db : DB) (now : String) (staff : Bool) (gid : Nat)
    (gt cat : String) (k : Nat) (h : ClaimsOK db.claims) :
    ClaimsOK (randomguest_cmd db now staff gid gt cat k).2.claims := by
  unfold randomguest_cmd
  simp only []
  split
  · exact h
  split
  · exact h
  split
  · exact h
  split
  · exact h
  next st hst =>
    split
    · exact h
    split
    · exact h
    next hlen =>
      exact force_claim_guest_claimsOK db now gid (py_strip gt) _ st.1 true h
        (list_unclaimed_not_claimed (List.get_mem _ _ _))

theorem swap_cmd_claimsOK (db : DB) (now : String) (staff : Bool) (gid mid : Nat)
    (tag oldi newi : String) (nm : Nat) (h : ClaimsOK db.claims) :
    ClaimsOK (swap_cmd db now staff gid mid tag oldi newi nm).2.claims := by
  unfold swap_cmd
  simp only []
  split
  · exact h
  split
  · exact h
  split
  next old_ic new_ic hold hnew =>
    split
    · exact h
    split
    · exact h
    next old_claim hoc =>
      split
      · exact h
      next uid huid =>
        split
        · exact h
        split
        · exact h
        next hcl =>
          split
          · exact h
          have h1 : ClaimsOK (repost_listing (delete_claim_by_id db old_claim.id) old_ic nm).2.claims := by
            rw [repost_listing_snd_claims]
            exact claimsOK_filter _ h
          have hset : (repost_listing (delete_claim_by_id db old_claim.id) old_ic nm).2.settings
              = db.settings := by
            rw [repost_listing_snd_settings, delete_claim_by_id_settings]
          have htid : get_active_thread_id
              (repost_listing (delete_claim_by_id db old_claim.id) old_ic nm).2
              = get_active_thread_id db := get_active_thread_id_congr hset
          have hguard : is_item_claimed
              (repost_listing (delete_claim_by_id db old_claim.id) old_ic nm).2 new_ic
              (get_active_thread_id
                (repost_listing (delete_claim_by_id db old_claim.id) old_ic nm).2) = false := by
            rw [htid, is_item_claimed_congr (repost_listing_snd_claims _ _ _)]
            exact is_item_claimed_delete_false (Bool.of_not_eq_true hcl)
          exact force_claim_discord_claimsOK _ now gid mid tag new_ic old_claim.reason false h1
            hguard
  · exact h

theorem unassign_cmd_claimsOK (db : DB) (staff : Bool) (mid : Nat) (ica : String) (nm : Nat)
    (h : ClaimsOK db.claims) : ClaimsOK (unassign_cmd db staff mid ica nm).2.claims := by
  unfold unassign_cmd
  simp only []
  split
  · exact h
  split
  · exact h
  split
  · exact h
  next ic hic =>
    split
    · exact h
    next claim hclm =>
      split
      · exact h
      next uid huid =>
        split
        · exact h
        split <;>
        · rw [repost_listing_snd_claims, set_member_winner_remaining_claims]
          exact claimsOK_filter _ h

theorem winner_cmd_claimsOK (db : DB) (staff : Bool) (mid : Nat) (amount : Int)
    (reason : String) (h : ClaimsOK db.claims) :
    ClaimsOK (winner_cmd db staff mid amount reason).2.claims := by
  unfold winner_cmd
  simp only []
  split
  · exact h
  split
  · exact h
  rw [set_member_winner_remaining_claims]
  exact h

theorem guestwinner_cmd_claimsOK (db : DB) (staff : Bool) (gt : String) (amount : Int)
    (reason : String) (h : ClaimsOK db.claims) :
    ClaimsOK (guestwinner_cmd db staff gt amount reason).2.claims := by
  unfold guestwinner_cmd
  simp only []
  split
  · exact h
  split
  · exact h
  rw [upsert_guest_winner_claims]
  exact h

theorem step_claimsOK (db : DB) (op : ClaimOp) (h : ClaimsOK db.claims) :
    ClaimsOK (step db op).claims := by
  cases op with
  | reaction env p => exact on_raw_reaction_add_claimsOK env db p h
  | assign now staff gid mid tag ic ro => exact assign_cmd_claimsOK db now staff gid mid tag ic ro h
  | guestclaim now staff gid gt ic => exact guestclaim_cmd_claimsOK db now staff gid gt ic h
  | random now staff gid mid tag cat k => exact random_cmd_claimsOK db now staff gid mid tag cat k h
  | randomguest now staff gid gt cat k => exact randomguest_cmd_claimsOK db now staff gid gt cat k h
  | swap now staff gid mid tag oldi newi nm =>
      exact swap_cmd_claimsOK db now staff gid mid tag oldi newi nm h
  | unassign staff mid ic nm => exact unassign_cmd_claimsOK db staff mid ic nm h
  | winner staff mid amount reason => exact winner_cmd_claimsOK db staff mid amount reason h
  | guestwinner staff gt amount reason => exact guestwinner_cmd_claimsOK db staff gt amount reason h

/-- **C1.** For every state reachable by any sequence of claim operations
(reaction claim, assign, guestclaim, random, randomguest, swap — and also
the unassign / grant operations) from a state whose `claims` table has at
most one live claim per (session thread id, item code), the resulting
`claims` table still has at most one live claim per (session thread id,
item code): every commit path performs a claims lookup for the item and
thread before inserting and rejects when a live claim exists. -/
theorem C1_at_most_one_live_claim (db : DB) (ops : List ClaimOp) (h : ClaimsOK db.claims) :
    ClaimsOK (ops.foldl step db).claims := by
  induction ops generalizing db with
  | nil => exact h
  | cons op rest ih => exact ih _ (step_claimsOK db op h)

/-- A small concrete database used by several witnesses: two listed items,
one winner with three picks, an open session in thread 55. -/
def demo_db : DB :=
  { items := [⟨"N001", "N", 1, "wm1.png", "u1", "raw1.png", "r1", 101⟩,
              ⟨"N002", "N", 2, "wm2.png", "u2", "raw2.png", "r2", 102⟩],
    winners := [⟨7, "giveaway", 3⟩], guestWinners := [], claims := [], nextClaimId := 1,
    settings := [("active_claims_thread_id", "55")] }

/-- Concrete operation sequence for the C1 witness: a reaction claim of
N001, a second (rejected) reaction on the same listing, a staff assign of
N002, and a swap attempt. -/
def c1_ops : List ClaimOp :=
  [ClaimOp.reaction ⟨999, ["👍"], true, true, "t0"⟩ ⟨7, 1, 10, 101, "👍", "alice#1", "alice"⟩,
   ClaimOp.reaction ⟨999, ["👍"], true, true, "t1"⟩ ⟨7, 1, 10, 101, "👍", "alice#1", "alice"⟩,
   ClaimOp.assign "t2" true 1 7 "alice#1" "N002" none,
   ClaimOp.swap "t3" true 1 7 "alice#1" "N001" "N002" 301]

theorem C1_at_most_one_live_claim_witness :
    ClaimsOK demo_db.claims ∧ ClaimsOK (c1_ops.foldl step demo_db).claims :=
  ⟨by decide, C1_at_most_one_live_claim demo_db c1_ops (by decide)⟩

/-! ### LedgerOK machinery -/

theorem ledgerOK_congr {db1 db2 : DB} (hw : db1.winners = db2.winners)
    (hg : db1.guestWinners = db2.guestWinners) (h : LedgerOK db2) : LedgerOK db1 := by
  unfold LedgerOK at h ⊢
  rw [hw, hg]
  exact h

theorem get_winner_state_nonneg {db : DB} {uid : Nat} {st : String × Int}
    (h : LedgerOK db) (hst : get_winner_state db uid = some st) : 0 ≤ st.2 := by
  unfold get_winner_state at hst
  rw [Option.map_eq_some'] at hst
  obtain ⟨w, hw, hmap⟩ := hst
  have := h.1 w (List.mem_of_find?_eq_some hw)
  rw [← hmap]
  exact this

theorem get_guest_winner_nonneg {db : DB} {gt : String} {st : String × Int}
    (h : LedgerOK db) (hst : get_guest_winner db gt = some st) : 0 ≤ st.2 := by
  unfold get_guest_winner at hst
  rw [Option.map_eq_some'] at hst
  obtain ⟨g, hg, hmap⟩ := hst
  have := h.2 g (List.mem_of_find?_eq_some hg)
  rw [← hmap]
  exact this

theorem ledgerOK_set_winner {db : DB} (uid : Nat) (r : String) {rem : Int}
    (h : LedgerOK db) (hrem : 0 ≤ rem) :
    LedgerOK (set_member_winner_remaining db uid r rem) := by
  unfold set_member_winner_remaining
  split
  · constructor
    · intro w hw
      rw [List.mem_map] at hw
      obtain ⟨w0, hw0, hmap⟩ := hw
      rw [← hmap]
      split
      · exact hrem
      · exact h.1 w0 hw0
    · exact h.2
  · constructor
    · intro w hw
      rw [List.mem_append] at hw
      cases hw with
      | inl hin => exact h.1 w hin
      | inr hone =>
        rw [List.mem_singleton] at hone
        rw [hone]
        exact hrem
    · exact h.2

theorem ledgerOK_upsert_guest {db : DB} (gt r : String) {rem : Int}
    (h : LedgerOK db) (hrem : 0 ≤ rem) : LedgerOK (upsert_guest_winner db gt r rem) := by
  unfold upsert_guest_winner
  split
  · constructor
    · exact h.1
    · intro g hg
      rw [List.mem_map] at hg
      obtain ⟨g0, hg0, hmap⟩ := hg
      rw [← hmap]
      split
      · exact hrem
      · exact h.2 g0 hg0
  · constructor
    · exact h.1
    · intro g hg
      rw [List.mem_append] at hg
      cases hg with
      | inl hin => exact h.2 g hin
      | inr hone =>
        rw [List.mem_singleton] at hone
        rw [hone]
        exact hrem

theorem force_claim_discord_ledgerOK (db : DB) (now : String) (gid mid : Nat)
    (tag item_code reason : String) (dec : Bool) (h : LedgerOK db) :
    LedgerOK (force_claim_discord db now gid mid tag item_code reason dec) := by
  unfold force_claim_discord
  simp only []
  split
  · exact h
  split
  · exact h
  next item hit =>
    have hX : LedgerOK (add_claim
        (if item.selectionMessageId ≠ 0 then
          update_item_selection_message_id db item.itemCode 0 else db)
        now gid (get_active_thread_id db) (some mid) tag reason item.category item.itemCode
        item.number item.wmFilename item.rawFilename) := by
      refine ledgerOK_congr ?_ ?_ h <;> split <;> rfl
    split
    · split
      · exact ledgerOK_set_winner mid _ hX (le_max_left 0 _)
      · exact hX
    · exact hX

theorem force_claim_guest_ledgerOK (db : DB) (now : String) (gid : Nat)
    (gt item_code reason : String) (dec : Bool) (h : LedgerOK db) :
    LedgerOK (force_claim_guest db now gid gt item_code reason dec) := by
  unfold force_claim_guest
  simp only []
  split
  · exact h
  split
  · exact h
  next item hit =>
    have hX : LedgerOK (add_claim
        (if item.selectionMessageId ≠ 0 then
          update_item_selection_message_id db item.itemCode 0 else db)
        now gid (get_active_thread_id db) none gt reason item.category item.itemCode
        item.number item.wmFilename item.rawFilename) := by
      refine ledgerOK_congr ?_ ?_ h <;> split <;> rfl
    split
    · split
      · exact ledgerOK_upsert_guest gt _ hX (le_max_left 0 _)
      · exact hX
    · exact hX

theorem on_raw_reaction_add_ledgerOK (env : BotEnv) (db : DB) (p : ReactionEvent)
    (h : LedgerOK db) : LedgerOK (on_raw_reaction_add env db p).2 := by
  unfold on_raw_reaction_add
  simp only []
  split
  · exact h
  split
  · exact h
  split
  · exact h
  split
  · exact h
  split
  · exact h
  split
  · exact h
  next item hitem =>
    split
    · exact h
    next st hst =>
      split
      · exact h
      next hpos =>
        split
        · exact h
        split
        · exact h
        have h1 : LedgerOK (add_claim db env.eventTime p.guildId (get_active_thread_id db)
            (some p.userId) p.memberTag st.1 item.category item.itemCode item.number
            item.wmFilename item.rawFilename) := ledgerOK_congr rfl rfl h
        have h2 : LedgerOK (set_member_winner_remaining _ p.userId st.1 (st.2 - 1)) :=
          ledgerOK_set_winner p.userId st.1 h1 (by omega)
        exact ledgerOK_congr rfl rfl h2

theorem assign_cmd_ledgerOK (db : DB) (now : String) (staff : Bool) (gid mid : Nat)
    (tag ica : String) (ro : Option String) (h : LedgerOK db) :
    LedgerOK (assign_cmd db now staff gid mid tag ica ro).2 := by
  unfold assign_cmd
  simp only []
  split
  · exact h
  split
  · exact h
  split
  · exact h
  split
  · exact h
  next st hst =>
    split
    · exact h
    split
    · exact h
    next item hitem =>
      split
      · exact h
      constructor
      · intro w hw
        rw [List.mem_filter] at hw
        obtain ⟨hwdec, hwkeep⟩ := hw
        rw [List.mem_map] at hwdec
        obtain ⟨w0, hw0, hmap⟩ := hwdec
        by_cases hwu : w.userId = mid
        · have : ¬(w.remaining ≤ 0) := by
            intro hle
            rw [Bool.not_eq_eq_eq_not] at hwkeep
            simp [hwu, hle] at hwkeep
          omega
        · have hw0u : ¬(w0.userId = mid) := by
            intro he
            apply hwu
            rw [← hmap]
            simp [he]
          rw [← hmap]
          simp only [if_neg hw0u]
          exact h.1 w0 hw0
      · exact h.2

theorem random_cmd_ledgerOK (db : DB) (now : String) (staff : Bool) (gid mid : Nat)
    (tag cat : String) (k : Nat) (h : LedgerOK db) :
    LedgerOK (random_cmd db now staff gid mid tag cat k).2 := by
  unfold random_cmd
  simp only []
  split
  · exact h
  split
  · exact h
  split
  · exact h
  split
  · exact h
  next st hst =>
    split
    · exact h
    split
    · exact h
    exact force_claim_discord_ledgerOK db now gid mid tag _ st.1 true h

theorem randomguest_cmd_ledgerOK (db : DB) (now : String) (staff : Bool) (gid : Nat)
    (gt cat : String) (k : Nat) (h : LedgerOK db) :
    LedgerOK (randomguest_cmd db now staff gid gt cat k).2 := by
  unfold randomguest_cmd
  simp only []
  split
  · exact h
  split
  · exact h
  split
  · exact h
  split
  · exact h
  next st hst =>
    split
    · exact h
    split
    · exact h
    exact force_claim_guest_ledgerOK db now gid (py_strip gt) _ st.1 true h

theorem guestclaim_cmd_ledgerOK (db : DB) (now : String) (staff : Bool) (gid : Nat)
    (gt ica : String) (h : LedgerOK db) :
    LedgerOK (guestclaim_cmd db now staff gid gt ica).2 := by
  unfold guestclaim_cmd
  simp only []
  split
  · exact h
  split
  · exact h
  split
  · exact h
  next ic hic =>
    split
    · exact h
    next st hst =>
      split
      · exact h
      split
      · exact h
      split
      · exact h
      exact force_claim_guest_ledgerOK db now gid (py_strip gt) ic st.1 true h

theorem swap_cmd_ledgerOK (db : DB) (now : String) (staff : Bool) (gid mid : Nat)
    (tag oldi newi : String) (nm : Nat) (h : LedgerOK db) :
    LedgerOK (swap_cmd db now staff gid mid tag oldi newi nm).2 := by
  unfold swap_cmd
  simp only []
  split
  · exact h
  split
  · exact h
  split
  next old_ic new_ic hold hnew =>
    split
    · exact h
    split
    · exact h
    next old_claim hoc =>
      split
      · exact h
      next uid huid =>
        split
        · exact h
        split
        · exact h
        split
        · exact h
        refine force_claim_discord_ledgerOK _ now gid mid tag new_ic old_claim.reason false ?_
        refine ledgerOK_congr ?_ ?_ h
        · rw [repost_listing_snd_winners, delete_claim_by_id_winners]
        · rw [repost_listing_snd_guestWinners, delete_claim_by_id_guestWinners]
  · exact h

theorem unassign_cmd_ledgerOK (db : DB) (staff : Bool) (mid : Nat) (ica : String) (nm : Nat)
    (h : LedgerOK db) : LedgerOK (unassign_cmd db staff mid ica nm).2 := by
  unfold unassign_cmd
  simp only []
  split
  · exact h
  split
  · exact h
  split
  · exact h
  next ic hic =>
    split
    · exact h
    next claim hclm =>
      split
      · exact h
      next uid huid =>
        split
        · exact h
        have hdel : LedgerOK (delete_claim_by_id db claim.id) := ledgerOK_congr rfl rfl h
        split
        next st hst =>
          refine ledgerOK_congr (repost_listing_snd_winners _ _ _)
            (repost_listing_snd_guestWinners _ _ _) ?_
          refine ledgerOK_set_winner mid st.1 hdel ?_
          have := get_winner_state_nonneg hdel hst
          omega
        next hst =>
          refine ledgerOK_congr (repost_listing_snd_winners _ _ _)
            (repost_listing_snd_guestWinners _ _ _) ?_
          exact ledgerOK_set_winner mid claim.reason hdel (by omega)

theorem winner_cmd_ledgerOK (db : DB) (staff : Bool) (mid : Nat) (amount : Int)
    (reason : String) (h : LedgerOK db) :
    LedgerOK (winner_cmd db staff mid amount reason).2 := by
  unfold winner_cmd
  simp only []
  split
  · exact h
  split
  · exact h
  next hamt =>
    split
    next st hst =>
      have h2 : (0:Int) ≤ st.2 + amount := by
        have := get_winner_state_nonneg h hst
        omega
      exact ledgerOK_set_winner mid reason h h2
    next hst =>
      exact ledgerOK_set_winner mid reason h (by omega)

theorem guestwinner_cmd_ledgerOK (db : DB) (staff : Bool) (gt : String) (amount : Int)
    (reason : String) (h : LedgerOK db) :
    LedgerOK (guestwinner_cmd db staff gt amount reason).2 := by
  unfold guestwinner_cmd
  simp only []
  split
  · exact h
  split
  · exact h
  next hamt =>
    split
    next st hst =>
      have h2 : (0:Int) ≤ st.2 + amount := by
        have := get_guest_winner_nonneg h hst
        omega
      exact ledgerOK_upsert_guest (py_strip gt) reason h h2
    next hst =>
      exact ledgerOK_upsert_guest (py_strip gt) reason h (by omega)

theorem step_ledgerOK (db : DB) (op : ClaimOp) (h : LedgerOK db) : LedgerOK (step db op) := by
  cases op with
  | reaction env p => exact on_raw_reaction_add_ledgerOK env db p h
  | assign now staff gid mid tag ic ro => exact assign_cmd_ledgerOK db now staff gid mid tag ic ro h
  | guestclaim now staff gid gt ic => exact guestclaim_cmd_ledgerOK db now staff gid gt ic h
  | random now staff gid mid tag cat k => exact random_cmd_ledgerOK db now staff gid mid tag cat k h
  | randomguest now staff gid gt cat k =>
      exact randomguest_cmd_ledgerOK db now staff gid gt cat k h
  | swap now staff gid mid tag oldi newi nm =>
      exact swap_cmd_ledgerOK db now staff gid mid tag oldi newi nm h
  | unassign staff mid ic nm => exact unassign_cmd_ledgerOK db staff mid ic nm h
  | winner staff mid amount reason => exact winner_cmd_ledgerOK db staff mid amount reason h
  | guestwinner staff gt amount reason => exact guestwinner_cmd_ledgerOK db staff gt amount reason h

/-- **C2.** For every registered winner entry and every guest entry, the
remaining-pick count stays a non-negative integer under any sequence of
grant (winner / guestwinner), decrement (reaction claim / assign / random /
guest variants; the force-claim decrement clamps with `max 0 (rem - 1)`)
and refund (unassign) operations. -/
theorem C2_remaining_never_negative (db : DB) (ops : List ClaimOp) (h : LedgerOK db) :
    LedgerOK (ops.foldl step db) := by
  induction ops generalizing db with
  | nil => exact h
  | cons op rest ih => exact ih _ (step_ledgerOK db op h)

/-- Concrete operation sequence for the C2 witness: grants, a reaction
claim, an unassign refund, and guest decrement paths. -/
def c2_ops : List ClaimOp :=
  [ClaimOp.winner true 7 2 "giveaway",
   ClaimOp.guestwinner true "guest one" 1 "raffle",
   ClaimOp.reaction ⟨999, ["👍"], true, true, "t0"⟩ ⟨7, 1, 10, 101, "👍", "alice#1", "alice"⟩,
   ClaimOp.unassign true 7 "N001" 301,
   ClaimOp.guestclaim "t1" true 1 "guest one" "N002",
   ClaimOp.randomguest "t2" true 1 "guest one" "N" 0]

theorem C2_remaining_never_negative_witness :
    LedgerOK demo_db ∧ LedgerOK (c2_ops.foldl step demo_db) :=
  ⟨by decide, C2_remaining_never_negative demo_db c2_ops (by decide)⟩

/-! ### C3: the reaction commit is not one transaction -/

/-- The reaction-claim commit path issues its ledger writes as separately
committed sqlite transactions, in this order: `add_claim` runs its INSERT
and `conn.commit()`, then `set_member_winner_remaining` runs its upsert and
`conn.commit()`, then `update_item_selection_message_id` commits.  A
storage failure between two of them leaves exactly the preceding prefix
applied. -/
def reaction_commit_txns (env : BotEnv) (p : ReactionEvent) (tid : Nat) (reason : String)
    (remaining : Int) (item : Item) : List (DB → DB) :=
  [fun db => add_claim db env.eventTime p.guildId tid (some p.userId) p.memberTag reason
     item.category item.itemCode item.number item.wmFilename item.rawFilename,
   fun db => set_member_winner_remaining db p.userId reason (remaining - 1),
   fun db => update_item_selection_message_id db item.itemCode 0]

/-- Run the first `k` committed transactions (the state left behind when a
storage failure aborts the operation after `k` commits). -/
def run_first_txns (txns : List (DB → DB)) (k : Nat) (db : DB) : DB :=
  (txns.take k).foldl (fun d t => t d) db

/-- Environment and event for the concrete commit scenario: user 7 reacts
with 👍 to the listing of item N001 (selection message 101) in thread 55. -/
def c3_env : BotEnv := ⟨999, ["👍"], true, true, "t0"⟩

def c3_event : ReactionEvent := ⟨7, 1, 10, 101, "👍", "alice#1", "alice"⟩

def c3_txns : List (DB → DB) :=
  reaction_commit_txns c3_env c3_event 55 "giveaway" 3
    ⟨"N001", "N", 1, "wm1.png", "u1", "raw1.png", "r1", 101⟩

/-- **C3** (code-bug demonstration).  On the concrete accepted claim, the
handler's final state is exactly the three separately committed
transactions run in order; stopping after the first commit (a storage
failure in the second) leaves a state in which the Claim row for N001 is
recorded but the claimant's remaining-pick count is still 3 — a Claim row
without its pick decrement, which the claim (and §4.1 of the spec) says
must be impossible. -/
theorem C3_commit_not_one_transaction :
    (on_raw_reaction_add c3_env demo_db c3_event).1 = ReactionResult.committed ∧
    (on_raw_reaction_add c3_env demo_db c3_event).2 = run_first_txns c3_txns 3 demo_db ∧
    is_item_claimed (run_first_txns c3_txns 1 demo_db) "N001" 55 = true ∧
    get_winner_state (run_first_txns c3_txns 1 demo_db) 7 = some ("giveaway", 3) ∧
    get_winner_state (run_first_txns c3_txns 3 demo_db) 7 = some ("giveaway", 2) := by
  decide

/-! ### C4: rejection order of the reaction handler -/

/-- **C4.** For every inbound reaction claim event (other than the bot's
own reactions), the handler evaluates the rejection conditions strictly in
this order, short-circuiting at the first failure with no ledger mutation:
(1) no open session, (2) signal not in the accepted claim-emoji set,
(3) Panic Switch enabled (with reversal of the external reaction),
(4) listing message not resolvable to an item (silent), (5) claimant has no
ledger entry or zero remaining (reversal plus private notice), (6) item
already claimed in the open session (reversal plus private notice); only
when all pass does step 7 commit the claim. -/
theorem C4_reaction_rejection_order (env : BotEnv) (db : DB) (p : ReactionEvent)
    (hself : p.userId ≠ env.botUserId) :
    (get_active_thread_id db = 0 →
      on_raw_reaction_add env db p = (.rejectNoSession, db)) ∧
    (get_active_thread_id db ≠ 0 → p.emoji ∉ env.claimEmojis →
      on_raw_reaction_add env db p = (.rejectBadEmoji, db)) ∧
    (get_active_thread_id db ≠ 0 → p.emoji ∈ env.claimEmojis → env.guildFound = true →
      (get_panic_meta db).1 = true →
      on_raw_reaction_add env db p = (.rejectPanic, db)) ∧
    (get_active_thread_id db ≠ 0 → p.emoji ∈ env.claimEmojis → env.guildFound = true →
      (get_panic_meta db).1 = false →
      get_item_by_selection_message db p.messageId = none →
      on_raw_reaction_add env db p = (.rejectUnresolvable, db)) ∧
    (∀ item, get_active_thread_id db ≠ 0 → p.emoji ∈ env.claimEmojis →
      env.guildFound = true → (get_panic_meta db).1 = false →
      get_item_by_selection_message db p.messageId = some item →
      get_winner_state db p.userId = none →
      on_raw_reaction_add env db p = (.rejectNoWinner, db)) ∧
    (∀ item st, get_active_thread_id db ≠ 0 → p.emoji ∈ env.claimEmojis →
      env.guildFound = true → (get_panic_meta db).1 = false →
      get_item_by_selection_message db p.messageId = some item →
      get_winner_state db p.userId = some st → st.2 ≤ 0 →
      on_raw_reaction_add env db p = (.rejectNoPicks, db)) ∧
    (∀ item st, get_active_thread_id db ≠ 0 → p.emoji ∈ env.claimEmojis →
      env.guildFound = true → (get_panic_meta db).1 = false →
      get_item_by_selection_message db p.messageId = some item →
      get_winner_state db p.userId = some st → 0 < st.2 →
      is_item_claimed db item.itemCode (get_active_thread_id db) = true →
      on_raw_reaction_add env db p = (.rejectAlreadyClaimed, db)) ∧
    (∀ item st, get_active_thread_id db ≠ 0 → p.emoji ∈ env.claimEmojis →
      env.guildFound = true → (get_panic_meta db).1 = false →
      get_item_by_selection_message db p.messageId = some item →
      get_winner_state db p.userId = some st → 0 < st.2 →
      is_item_claimed db item.itemCode (get_active_thread_id db) = false →
      env.memberFetchOk = true →
      on_raw_reaction_add env db p =
        (.committed, update_item_selection_message_id
          (set_member_winner_remaining
            (add_claim db env.eventTime p.guildId (get_active_thread_id db) (some p.userId)
              p.memberTag st.1 item.category item.itemCode item.number item.wmFilename
              item.rawFilename)
            p.userId st.1 (st.2 - 1))
          item.itemCode 0)) := by
  refine ⟨?_, ?_, ?_, ?_, ?_, ?_, ?_, ?_⟩
  · intro h1
    unfold on_raw_reaction_add
    simp [hself, h1]
  · intro h1 h2
    unfold on_raw_reaction_add
    simp [hself, h1, h2]
  · intro h1 h2 h3 h4
    unfold on_raw_reaction_add
    simp [hself, h1, h2, h3, h4]
  · intro h1 h2 h3 h4 h5
    unfold on_raw_reaction_add
    simp [hself, h1, h2, h3, h4, h5]
  · intro item h1 h2 h3 h4 h5 h6
    unfold on_raw_reaction_add
    simp [hself, h1, h2, h3, h4, h5, h6]
  · intro item st h1 h2 h3 h4 h5 h6 h7
    unfold on_raw_reaction_add
    simp [hself, h1, h2, h3, h4, h5, h6, h7]
  · intro item st h1 h2 h3 h4 h5 h6 h7 h8
    unfold on_raw_reaction_add
    simp [hself, h1, h2, h3, h4, h5, h6, h8, Int.not_le.mpr h7]
  · intro item st h1 h2 h3 h4 h5 h6 h7 h8 h9
    unfold on_raw_reaction_add
    simp [hself, h1, h2, h3, h4, h5, h6, h8, h9, Int.not_le.mpr h7]

/-- Witness for C4 at the concrete database: the all-checks-pass branch
commits the claim of N001 by user 7. -/
theorem C4_reaction_rejection_order_witness :
    on_raw_reaction_add c3_env demo_db c3_event =
      (.committed, update_item_selection_message_id
        (set_member_winner_remaining
          (add_claim demo_db "t0" 1 55 (some 7) "alice#1" "giveaway" "N" "N001" 1
            "wm1.png" "raw1.png")
          7 "giveaway" 2)
        "N001" 0) := by
  have h := (C4_reaction_rejection_order c3_env demo_db c3_event (by decide)).2.2.2.2.2.2.2
  exact h ⟨"N001", "N", 1, "wm1.png", "u1", "raw1.png", "r1", 101⟩ ("giveaway", 3)
    (by decide) (by decide) (by decide) (by decide) (by decide) (by decide) (by decide)
    (by decide) (by decide)

/-! ### C7 and C10: the confirmation gate -/

/-- **C7.** For every gated destructive command (wipe, newshow, panic,
endshow) invoked without the literal CONFIRM argument: when no unexpired
token exists for (actor, action) — absent, or created 60 or more seconds
ago so that its expiry is at or before now — the invocation returns the
needs-confirmation warning, performs no mutation, and stores a fresh token
expiring `CONFIRM_WINDOW_SECONDS` (60) from now; when an unexpired token
exists (strictly within the 60-second window), the invocation consumes the
token and performs the mutation. -/
theorem C7_confirmation_gate (db : DB) (tokens : ConfirmMap) (gid uid now ntid : Nat)
    (actor iso : String) (c : Option String) (hc : py_upper (c.getD "") ≠ "CONFIRM") :
    (get_active_thread_id db = 0 → token_expiry tokens (gid, uid, "wipe") ≤ now →
      wipe_cmd db tokens true c gid uid now =
        (.needsConfirmation, db, delete_token tokens (gid, uid, "wipe") ++
          [((gid, uid, "wipe"), now + CONFIRM_WINDOW_SECONDS)])) ∧
    (get_active_thread_id db = 0 → now < token_expiry tokens (gid, uid, "wipe") →
      wipe_cmd db tokens true c gid uid now =
        (.done, wipe_tables db, delete_token tokens (gid, uid, "wipe"))) ∧
    (token_expiry tokens (gid, uid, "newshow") ≤ now →
      newshow_cmd db tokens true c gid uid now true ntid =
        (.needsConfirmation, db, delete_token tokens (gid, uid, "newshow") ++
          [((gid, uid, "newshow"), now + CONFIRM_WINDOW_SECONDS)])) ∧
    (now < token_expiry tokens (gid, uid, "newshow") →
      newshow_cmd db tokens true c gid uid now true ntid =
        (.done, set_setting (wipe_tables db) "active_claims_thread_id" (toString ntid),
          delete_token tokens (gid, uid, "newshow"))) ∧
    (token_expiry tokens (gid, uid, "panic") ≤ now →
      panic_cmd db tokens true c gid uid now actor iso =
        (.needsConfirmation, db, delete_token tokens (gid, uid, "panic") ++
          [((gid, uid, "panic"), now + CONFIRM_WINDOW_SECONDS)])) ∧
    (now < token_expiry tokens (gid, uid, "panic") →
      panic_cmd db tokens true c gid uid now actor iso =
        (.done, set_panic_meta db true actor iso, delete_token tokens (gid, uid, "panic"))) ∧
    (token_expiry tokens (gid, uid, "endshow") ≤ now →
      endshow_cmd db tokens true c gid uid now =
        (.needsConfirmation, db, delete_token tokens (gid, uid, "endshow") ++
          [((gid, uid, "endshow"), now + CONFIRM_WINDOW_SECONDS)])) ∧
    (now < token_expiry tokens (gid, uid, "endshow") →
      endshow_cmd db tokens true c gid uid now =
        (.done, clear_setting db "active_claims_thread_id",
          delete_token tokens (gid, uid, "endshow"))) := by
  refine ⟨?_, ?_, ?_, ?_, ?_, ?_, ?_, ?_⟩
  · intro h0 hexp
    unfold wipe_cmd needs_confirm
    simp [h0, hc, Nat.not_lt.mpr hexp]
  · intro h0 hexp
    unfold wipe_cmd needs_confirm
    simp [h0, hc, hexp]
  · intro hexp
    unfold newshow_cmd needs_confirm
    simp [hc, Nat.not_lt.mpr hexp]
  · intro hexp
    unfold newshow_cmd needs_confirm
    simp [hc, hexp]
  · intro hexp
    unfold panic_cmd needs_confirm
    simp [hc, Nat.not_lt.mpr hexp]
  · intro hexp
    unfold panic_cmd needs_confirm
    simp [hc, hexp]
  · intro hexp
    unfold endshow_cmd needs_confirm
    simp [hc, Nat.not_lt.mpr hexp]
  · intro hexp
    unfold endshow_cmd needs_confirm
    simp [hc, hexp]

/-- Witness for C7 on the wipe command with no show active: first
invocation warns and stores a token expiring at 160; a second invocation at
130 (within the window) performs the wipe and consumes the token; an
invocation at exactly 160 (60 seconds after creation) is treated as fresh
and restarts the window. -/
theorem C7_confirmation_gate_witness :
    wipe_cmd (wipe_tables demo_db) [] true none 1 7 100 =
      (.needsConfirmation, wipe_tables demo_db, [((1, 7, "wipe"), 160)]) ∧
    wipe_cmd (wipe_tables demo_db) [((1, 7, "wipe"), 160)] true none 1 7 130 =
      (.done, wipe_tables (wipe_tables demo_db), []) ∧
    wipe_cmd (wipe_tables demo_db) [((1, 7, "wipe"), 160)] true none 1 7 160 =
      (.needsConfirmation, wipe_tables demo_db, [((1, 7, "wipe"), 220)]) := by
  refine ⟨?_, ?_, ?_⟩
  · exact (C7_confirmation_gate (wipe_tables demo_db) [] 1 7 100 0 "a" "i" none
      (by decide)).1 (by decide) (by decide)
  · exact (C7_confirmation_gate (wipe_tables demo_db) [((1, 7, "wipe"), 160)] 1 7 130 0 "a" "i"
      none (by decide)).2.1 (by decide) (by decide)
  · exact (C7_confirmation_gate (wipe_tables demo_db) [((1, 7, "wipe"), 160)] 1 7 160 0 "a" "i"
      none (by decide)).1 (by decide) (by decide)

/-- **C10.** For every gated destructive command, a single invocation whose
confirmation argument upper-cases to the literal CONFIRM performs the
destructive action immediately and leaves the token map untouched — the
60-second two-step window is bypassed entirely, even when no token exists
for the (actor, action). -/
theorem C10_confirm_argument_bypasses_gate (db : DB) (tokens : ConfirmMap)
    (gid uid now ntid : Nat) (actor iso : String) (c : Option String)
    (hc : py_upper (c.getD "") = "CONFIRM") :
    (get_active_thread_id db = 0 →
      wipe_cmd db tokens true c gid uid now = (.done, wipe_tables db, tokens)) ∧
    (newshow_cmd db tokens true c gid uid now true ntid =
      (.done, set_setting (wipe_tables db) "active_claims_thread_id" (toString ntid),
        tokens)) ∧
    (panic_cmd db tokens true c gid uid now actor iso =
      (.done, set_panic_meta db true actor iso, tokens)) ∧
    (endshow_cmd db tokens true c gid uid now =
      (.done, clear_setting db "active_claims_thread_id", tokens)) := by
  refine ⟨?_, ?_, ?_, ?_⟩
  · intro h0
    unfold wipe_cmd
    simp [h0, hc]
  · unfold newshow_cmd
    simp [hc]
  · unfold panic_cmd
    simp [hc]
  · unfold endshow_cmd
    simp [hc]

/-- Witness for C10: `!wipe confirm` (lower case) and `!panic Confirm` with
an empty token map mutate immediately. -/
theorem C10_confirm_argument_bypasses_gate_witness :
    wipe_cmd (wipe_tables demo_db) [] true (some "confirm") 1 7 100 =
      (.done, wipe_tables (wipe_tables demo_db), []) ∧
    panic_cmd demo_db [] true (some "Confirm") 1 7 100 "staff#1" "iso1" =
      (.done, set_panic_meta demo_db true "staff#1" "iso1", []) := by
  refine ⟨?_, ?_⟩
  · exact (C10_confirm_argument_bypasses_gate (wipe_tables demo_db) [] 1 7 100 0 "a" "i"
      (some "confirm") (by decide)).1 (by decide)
  · exact (C10_confirm_argument_bypasses_gate demo_db [] 1 7 100 0 "staff#1" "iso1"
      (some "Confirm") (by decide)).2.2.1

/-! ### C5 and C6: the sort rebuild -/

/-- Concrete ledger for the sort claims: two claims by two distinct
claimants (alice claimed N001, bob claimed N002) in the open session 55. -/
def c5_db : DB :=
  { items := [⟨"N001", "N", 1, "wm1.png", "u1", "raw1.png", "r1", 0⟩,
              ⟨"N002", "N", 2, "wm2.png", "u2", "raw2.png", "r2", 0⟩],
    winners := [⟨1, "giveaway", 1⟩],
    guestWinners := [],
    claims := [⟨1, "t1", 9, 55, some 1, "alice", "giveaway", "N", "N001", 1, "wm1.png",
                "raw1.png"⟩,
               ⟨2, "t2", 9, 55, some 2, "bob", "raffle", "N", "N002", 2, "wm2.png",
                "raw2.png"⟩],
    nextClaimId := 3,
    settings := [("active_claims_thread_id", "55")] }

/-- **C5** (code-bug demonstration).  With two live claims by two distinct
claimants, the rebuild emits exactly one claimant header although there are
two claimants, re-emits no announcement at all for alice's claim on N001,
and posts bob's announcement twice — because the grouping statements of
`sort_cmd` are indented outside the row loop and only ever see the final
sorted row, and the rebuild loop sends each surviving row twice. -/
theorem C5_sort_rebuild_drops_claims :
    (get_claims_for_thread c5_db 55).length = 2 ∧
    (get_claims_for_thread c5_db 55).map SortRow.userTag = ["alice", "bob"] ∧
    (sort_cmd c5_db (fun _ => none) true []).countP
      (fun m => starts_with m.content "👤") = 1 ∧
    (sort_cmd c5_db (fun _ => none) true []).countP
      (fun m => is_bot_claim_message m) = 2 ∧
    (sort_cmd c5_db (fun _ => none) true []).countP
      (fun m => starts_with m.content "✅ **Card Claimed**\n- **User:** `alice`") = 0 ∧
    (sort_cmd c5_db (fun _ => none) true []).countP
      (fun m => starts_with m.content "✅ **Card Claimed**\n- **User:** `bob`") = 2 := by
  decide

/-- **C6** (counterexample).  Rebuilding twice with no intervening claims
does not reproduce the same surface: the second run deletes only the
marker-matching claim announcements, so the banner, the claimant header and
the picks-remaining section of the first run survive and a second copy of
each is appended — after the second run the surface holds two headers. -/
theorem C6_sort_not_idempotent :
    sort_cmd c5_db (fun _ => none) true (sort_cmd c5_db (fun _ => none) true [])
      ≠ sort_cmd c5_db (fun _ => none) true [] ∧
    (sort_cmd c5_db (fun _ => none) true (sort_cmd c5_db (fun _ => none) true [])).countP
      (fun m => starts_with m.content "👤") = 2 ∧
    (sort_cmd c5_db (fun _ => none) true []).countP
      (fun m => starts_with m.content "👤") = 1 := by
  decide

theorem filter_of_kept (p : Msg → Bool) (l : List Msg) :
    List.filter p (List.filter (fun m => !p m) l) = [] := by
  rw [List.filter_filter]
  simp

/-- **C6 (amended).**  The rebuild is idempotent only on the messages the
deletion marker matches: for every ledger state and surface, the multiset
of claim-announcement messages (those satisfying `is_bot_claim_message`)
after running sort twice with no intervening claims equals the one after
running it once — both are exactly the announcements re-emitted from the
ledger.  The banner, header and picks-remaining posts are not matched by
the marker and accumulate (see the counterexample), so the full surface is
not idempotent. -/
theorem C6_sort_claim_posts_stable (db : DB) (members : Nat → Option String)
    (staff : Bool) (surface : List Msg) :
    (sort_cmd db members staff (sort_cmd db members staff surface)).filter
        is_bot_claim_message
      = (sort_cmd db members staff surface).filter is_bot_claim_message := by
  cases staff with
  | false => rfl
  | true =>
    by_cases htid : get_active_thread_id db = 0
    · simp [sort_cmd, htid]
    · have hs : ∀ s : List Msg, sort_cmd db members true s
          = (s.filter fun m => !is_bot_claim_message m) ++ sort_emitted db members := by
        intro s
        unfold sort_cmd
        simp [htid]
      simp only [hs, List.filter_append, filter_of_kept, List.nil_append]

/-! ### Helper lemmas for the round-trip claims (C8, C9) -/

/-- The observable remaining-pick count of a user (an absent winner row
counts as zero). -/
def win_remaining (db : DB) (uid : Nat) : Int :=
  ((get_winner_state db uid).map Prod.snd).getD 0

theorem mem_of_getLast? {l : List α} {a : α} (h : l.getLast? = some a) : a ∈ l := by
  induction l with
  | nil => cases h
  | cons x xs ih =>
    cases xs with
    | nil =>
      simp only [List.getLast?_singleton, Option.some.injEq] at h
      simp [h]
    | cons y ys =>
      rw [List.getLast?_cons_cons] at h
      exact List.mem_cons_of_mem x (ih h)

theorem get_claim_for_item_mem {db : DB} {tid : Nat} {ic : String} {c : ClaimRow}
    (h : get_claim_for_item db tid ic = some c) :
    c ∈ db.claims ∧ c.threadId = tid ∧ c.itemCode = py_upper ic := by
  unfold get_claim_for_item at h
  have hmem := mem_of_getLast? h
  rw [List.mem_filter] at hmem
  refine ⟨hmem.1, ?_, ?_⟩
  · have := hmem.2
    simp only [Bool.and_eq_true, decide_eq_true_eq] at this
    exact this.1
  · have := hmem.2
    simp only [Bool.and_eq_true, decide_eq_true_eq] at this
    exact this.2

/-- Deleting the unique live claim for an item leaves the item unclaimed. -/
theorem is_item_claimed_after_delete {db : DB} {tid : Nat} {ic : String} {c : ClaimRow}
    (huniq : ClaimsOK db.claims)
    (hclaim : get_claim_for_item db tid ic = some c) :
    is_item_claimed (delete_claim_by_id db c.id) ic tid = false := by
  obtain ⟨hcmem, hctid, hccode⟩ := get_claim_for_item_mem hclaim
  rw [is_item_claimed_eq_false_iff]
  intro x hx hcon
  have hx2 : x ∈ db.claims.filter fun c0 => decide (c0.id ≠ c.id) := hx
  rw [List.mem_filter] at hx2
  obtain ⟨hxmem, hxid⟩ := hx2
  have hxid2 : x.id ≠ c.id := by simpa using hxid
  have hxc : x ≠ c := fun he => hxid2 (he ▸ rfl)
  have hsym : Symmetric fun a b : ClaimRow =>
      ¬(a.threadId = b.threadId ∧ a.itemCode = b.itemCode) := by
    intro a b hab hcon2
    exact hab ⟨hcon2.1.symm, hcon2.2.symm⟩
  have := (List.Pairwise.forall hsym huniq) hxmem hcmem hxc
  exact this ⟨hcon.1.trans hctid.symm, hcon.2.trans hccode.symm⟩

/-- After `set_member_winner_remaining`, the user's row reads back exactly
the written reason and remaining. -/
theorem find_map_upsert (l : List WinnerRow) (uid : Nat) (r : String) (v : Int)
    (h : (l.any fun w => decide (w.userId = uid)) = true) :
    ((l.map fun w => if w.userId = uid then { w with reason := r, remaining := v } else w).find?
        fun w => decide (w.userId = uid))
      = some { userId := uid, reason := r, remaining := v } := by
  induction l with
  | nil => simp at h
  | cons w ws ih =>
    by_cases hw : w.userId = uid
    · cases w with
      | mk wu wr wm =>
        simp only at hw
        subst hw
        simp
    · have h2 : (ws.any fun w => decide (w.userId = uid)) = true := by
        simpa [hw] using h
      simp [hw, ih h2]

theorem find_append_new (l : List WinnerRow) (uid : Nat) (r : String) (v : Int)
    (h : (l.any fun w => decide (w.userId = uid)) = false) :
    ((l ++ [(⟨uid, r, v⟩ : WinnerRow)]).find? fun w => decide (w.userId = uid))
      = some ⟨uid, r, v⟩ := by
  induction l with
  | nil => simp
  | cons w ws ih =>
    rw [List.any_cons] at h
    have hw : ¬(w.userId = uid) := by
      intro he
      simp [he] at h
    have h2 : (ws.any fun w => decide (w.userId = uid)) = false := by
      simpa [hw] using h
    simp [hw, ih h2]

theorem get_winner_state_set_self (db : DB) (uid : Nat) (r : String) (v : Int) :
    get_winner_state (set_member_winner_remaining db uid r v) uid = some (r, v) := by
  unfold set_member_winner_remaining get_winner_state
  split
  next hany =>
    simp only []
    rw [find_map_upsert db.winners uid r v hany]
    rfl
  next hany =>
    simp only []
    rw [find_append_new db.winners uid r v (by simpa using hany)]
    rfl

/-- After updating the selection message id of every row holding an item
code, resolving that message id finds a row holding the item code. -/
theorem find_sel_update (l : List Item) (code : String) (m : Nat)
    (hfresh : ∀ it ∈ l, it.selectionMessageId ≠ m)
    (hex : (l.find? fun it => decide (it.itemCode = code)).isSome = true) :
    (((l.map fun it => if it.itemCode = code then { it with selectionMessageId := m } else it).find?
        fun it => decide (it.selectionMessageId = m)).map Item.itemCode)
      = some code := by
  induction l with
  | nil => simp at hex
  | cons a as ih =>
    by_cases ha : a.itemCode = code
    · simp [ha]
    · have hfa : ¬(a.selectionMessageId = m) := hfresh a (List.mem_cons_self a as)
      have hex2 : (as.find? fun it => decide (it.itemCode = code)).isSome = true := by
        rw [List.find?_cons] at hex
        simpa [ha] using hex
      have hfresh2 : ∀ it ∈ as, it.selectionMessageId ≠ m :=
        fun it hit => hfresh it (List.mem_cons_of_mem a hit)
      simp only [List.map_cons, if_neg ha]
      rw [List.find?_cons_of_neg _ (by simpa using hfa)]
      exact ih hfresh2 hex2

/-- After the same update, looking the item up by code reads back the new
selection message id. -/
theorem find_code_update (l : List Item) (code : String) (m : Nat)
    (hex : (l.find? fun it => decide (it.itemCode = code)).isSome = true) :
    (((l.map fun it => if it.itemCode = code then { it with selectionMessageId := m } else it).find?
        fun it => decide (it.itemCode = code)).map Item.selectionMessageId)
      = some m := by
  induction l with
  | nil => simp at hex
  | cons a as ih =>
    by_cases ha : a.itemCode = code
    · simp [ha]
    · have hex2 : (as.find? fun it => decide (it.itemCode = code)).isSome = true := by
        rw [List.find?_cons] at hex
        simpa [ha] using hex
      simp only [List.map_cons, if_neg ha]
      rw [List.find?_cons_of_neg _ (by simpa using ha)]
      exact ih hex2

/-- Updating the selection id of one item code does not change lookups of a
different item code (the update never touches `itemCode`). -/
theorem get_item_update_other (db : DB) (a b : String) (m : Nat)
    (hab : py_upper a ≠ py_upper b) :
    get_item (update_item_selection_message_id db a m) b = get_item db b := by
  unfold get_item update_item_selection_message_id
  simp only []
  induction db.items with
  | nil => rfl
  | cons x xs ih =>
    simp only [List.map_cons]
    by_cases hx : x.itemCode = py_upper b
    · have hxa : ¬(x.itemCode = py_upper a) := fun he => hab (by rw [← he, hx])
      rw [if_neg hxa, List.find?_cons_of_pos _ (by simpa using hx),
        List.find?_cons_of_pos _ (by simpa using hx)]
    · by_cases hxa : x.itemCode = py_upper a
      · have hcode : ({ x with selectionMessageId := m } : Item).itemCode = x.itemCode := rfl
        rw [if_pos hxa, List.find?_cons_of_neg _ (by simp [hcode, hx]),
          List.find?_cons_of_neg _ (by simpa using hx)]
        exact ih
      · rw [if_neg hxa, List.find?_cons_of_neg _ (by simpa using hx),
          List.find?_cons_of_neg _ (by simpa using hx)]
        exact ih

theorem get_panic_meta_congr {db1 db2 : DB} (h : db1.settings = db2.settings) :
    (get_panic_meta db1).1 = (get_panic_meta db2).1 := by
  unfold get_panic_meta
  rw [get_setting_congr h]

/-- `is_item_claimed` is monotone under claim deletion. -/
theorem is_item_claimed_filter_false {db : DB} {ic : String} {tid i : Nat}
    (h : is_item_claimed db ic tid = false) :
    is_item_claimed (delete_claim_by_id db i) ic tid = false := by
  rw [is_item_claimed_eq_false_iff] at h ⊢
  intro x hx
  exact h x (List.mem_of_mem_filter hx)

/-- An unclaimed item has an empty claim filter, hence no
`get_claim_for_item` row. -/
theorem claims_filter_nil {db : DB} {ic : String} {tid : Nat}
    (h : is_item_claimed db ic tid = false) :
    db.claims.filter (fun c => decide (c.threadId = tid) && decide (c.itemCode = py_upper ic))
      = [] := by
  rw [is_item_claimed_eq_false_iff] at h
  rw [List.filter_eq_nil_iff]
  intro c hc hpred
  simp only [Bool.and_eq_true, decide_eq_true_eq] at hpred
  exact h c hc hpred

/-- The commit branch of the reaction handler, as one equation. -/
theorem on_raw_reaction_add_commit (env : BotEnv) (db : DB) (p : ReactionEvent)
    (item : Item) (st : String × Int)
    (hself : p.userId ≠ env.botUserId) (h1 : get_active_thread_id db ≠ 0)
    (h2 : p.emoji ∈ env.claimEmojis) (h3 : env.guildFound = true)
    (h4 : (get_panic_meta db).1 = false)
    (h5 : get_item_by_selection_message db p.messageId = some item)
    (h6 : get_winner_state db p.userId = some st) (h7 : 0 < st.2)
    (h8 : is_item_claimed db item.itemCode (get_active_thread_id db) = false)
    (h9 : env.memberFetchOk = true) :
    on_raw_reaction_add env db p =
      (.committed, update_item_selection_message_id
        (set_member_winner_remaining
          (add_claim db env.eventTime p.guildId (get_active_thread_id db) (some p.userId)
            p.memberTag st.1 item.category item.itemCode item.number item.wmFilename
            item.rawFilename)
          p.userId st.1 (st.2 - 1))
        item.itemCode 0) := by
  unfold on_raw_reaction_add
  simp [hself, h1, h2, h3, h4, h5, h6, h8, h9, Int.not_le.mpr h7]

/-- The successful branch of `!unassign`, as one equation: delete the
claim, refund one pick (live row + 1, or a fresh row at 1), repost the
listing under the fresh message id. -/
theorem unassign_cmd_eq (db : DB) (uid m : Nat) (codeArg ic : String) (c : ClaimRow)
    (itm : Item)
    (htid : get_active_thread_id db ≠ 0) (hic : parse_item_code codeArg = some ic)
    (hclaim : get_claim_for_item db (get_active_thread_id db) ic = some c)
    (howner : c.userId = some uid) (hitm : get_item db ic = some itm) :
    unassign_cmd db true uid codeArg m
      = (CmdResult.done, update_item_selection_message_id
          (match get_winner_state db uid with
           | some st => set_member_winner_remaining (delete_claim_by_id db c.id) uid st.1
               (st.2 + 1)
           | none => set_member_winner_remaining (delete_claim_by_id db c.id) uid c.reason 1)
          itm.itemCode m) := by
  have hgwdel : get_winner_state (delete_claim_by_id db c.id) uid = get_winner_state db uid :=
    get_winner_state_congr (delete_claim_by_id_winners db c.id) uid
  unfold unassign_cmd repost_listing
  simp only [Bool.not_true, Bool.false_eq_true, if_false, hic, hclaim, howner, hgwdel]
  rw [if_neg htid]
  simp only [ne_eq, not_true_eq_false, if_false]
  cases hw : get_winner_state db uid with
  | some st =>
    have hitm2 : get_item (set_member_winner_remaining (delete_claim_by_id db c.id) uid st.1
        (st.2 + 1)) ic = some itm := by
      have heq : get_item (set_member_winner_remaining (delete_claim_by_id db c.id) uid st.1
          (st.2 + 1)) ic = get_item db ic := get_item_congr (by simp) ic
      rw [heq]
      exact hitm
    simp [hitm2]
  | none =>
    have hitm2 : get_item (set_member_winner_remaining (delete_claim_by_id db c.id) uid c.reason
        1) ic = some itm := by
      have heq : get_item (set_member_winner_remaining (delete_claim_by_id db c.id) uid c.reason
          1) ic = get_item db ic := get_item_congr (by simp) ic
      rw [heq]
      exact hitm
    simp [hitm2]

theorem update_item_selection_message_id_items (db : DB) (code : String) (m : Nat) :
    (update_item_selection_message_id db code m).items
      = db.items.map fun it => if it.itemCode = py_upper code then
          { it with selectionMessageId := m } else it := rfl

/-- After refunding the pick and reposting the listing, the re-claim of the
same item by the same claimant goes through and consumes the refunded
pick.  `db1` is the database state produced by a successful unassign. -/
theorem reclaim_after_refund (db : DB) (uid m : Nat) (ic : String) (c : ClaimRow)
    (itm : Item) (env : BotEnv) (p : ReactionEvent) (R : String) (V : Int) (db1 : DB)
    (hdb1 : db1 = update_item_selection_message_id
      (set_member_winner_remaining (delete_claim_by_id db c.id) uid R V) itm.itemCode m)
    (htid : get_active_thread_id db ≠ 0)
    (hicU : py_upper ic = ic)
    (hitmcode : itm.itemCode = ic)
    (huniq : ClaimsOK db.claims)
    (hclaim : get_claim_for_item db (get_active_thread_id db) ic = some c)
    (hitm : get_item db ic = some itm)
    (hVpos : 0 < V)
    (hpuid : p.userId = uid) (hself : p.userId ≠ env.botUserId)
    (hemoji : p.emoji ∈ env.claimEmojis) (hguild : env.guildFound = true)
    (hmf : env.memberFetchOk = true) (hpanic : (get_panic_meta db).1 = false)
    (hmsg : p.messageId = m)
    (hfresh : ∀ it ∈ db.items, it.selectionMessageId ≠ m) :
    win_remaining db1 uid = V ∧
    is_item_claimed db1 ic (get_active_thread_id db) = false ∧
    (get_item db1 ic).map Item.selectionMessageId = some m ∧
    (on_raw_reaction_add env db1 p).1 = ReactionResult.committed ∧
    win_remaining (on_raw_reaction_add env db1 p).2 uid = V - 1 ∧
    is_item_claimed (on_raw_reaction_add env db1 p).2 ic (get_active_thread_id db) = true ∧
    (get_claim_for_item (on_raw_reaction_add env db1 p).2 (get_active_thread_id db) ic).map
      ClaimRow.userId = some (some uid) := by
  have hset1 : db1.settings = db.settings := by rw [hdb1]; simp
  have htid1 : get_active_thread_id db1 = get_active_thread_id db :=
    get_active_thread_id_congr hset1
  have hpanic1 : (get_panic_meta db1).1 = false := (get_panic_meta_congr hset1).trans hpanic
  have hwin1 : get_winner_state db1 uid = some (R, V) := by
    rw [hdb1]
    have h1 : get_winner_state (update_item_selection_message_id
        (set_member_winner_remaining (delete_claim_by_id db c.id) uid R V) itm.itemCode m) uid
        = get_winner_state (set_member_winner_remaining (delete_claim_by_id db c.id) uid R V)
          uid := get_winner_state_congr (by simp) uid
    rw [h1]
    exact get_winner_state_set_self _ uid R V
  have hclaims1 : db1.claims = (delete_claim_by_id db c.id).claims := by rw [hdb1]; simp
  have hnc1 : is_item_claimed db1 ic (get_active_thread_id db) = false := by
    rw [is_item_claimed_congr hclaims1]
    exact is_item_claimed_after_delete huniq hclaim
  have hcond : py_upper itm.itemCode = ic := by rw [hitmcode, hicU]
  have hitems1 : db1.items
      = db.items.map fun it => if it.itemCode = ic then { it with selectionMessageId := m }
          else it := by
    rw [hdb1, update_item_selection_message_id_items]
    simp only [set_member_winner_remaining_items, delete_claim_by_id_items, hcond]
  have hexfind : (db.items.find? fun it => decide (it.itemCode = ic)).isSome = true := by
    have h0 : get_item db ic = some itm := hitm
    unfold get_item at h0
    simp only [hicU] at h0
    rw [h0]
    rfl
  have hsel1 : (get_item db1 ic).map Item.selectionMessageId = some m := by
    unfold get_item
    simp only [hicU, hitems1]
    exact find_code_update db.items ic m hexfind
  have hres0 := find_sel_update db.items ic m hfresh hexfind
  rw [Option.map_eq_some'] at hres0
  obtain ⟨item1, hfind1, hcode1⟩ := hres0
  have hres1 : get_item_by_selection_message db1 p.messageId = some item1 := by
    unfold get_item_by_selection_message
    rw [hmsg, hitems1]
    exact hfind1
  have htid1ne : get_active_thread_id db1 ≠ 0 := by rw [htid1]; exact htid
  have hwin1p : get_winner_state db1 p.userId = some (R, V) := by rw [hpuid]; exact hwin1
  have h8b : is_item_claimed db1 item1.itemCode (get_active_thread_id db1) = false := by
    rw [hcode1, htid1]
    exact hnc1
  have hcommit := on_raw_reaction_add_commit env db1 p item1 (R, V) hself htid1ne hemoji
    hguild hpanic1 hres1 hwin1p hVpos h8b hmf
  refine ⟨?_, hnc1, hsel1, ?_, ?_, ?_, ?_⟩
  · unfold win_remaining
    rw [hwin1]
    rfl
  · rw [hcommit]
  · rw [hcommit]
    unfold win_remaining
    rw [← hpuid]
    have hh : ∀ dbx : DB, get_winner_state
        (update_item_selection_message_id dbx item1.itemCode 0) p.userId
        = get_winner_state dbx p.userId :=
      fun dbx => get_winner_state_congr (by simp) p.userId
    rw [hh, get_winner_state_set_self]
    rfl
  · rw [hcommit]
    unfold is_item_claimed
    rw [update_item_selection_message_id_claims, set_member_winner_remaining_claims,
      add_claim_claims, List.any_append]
    simp [hcode1, htid1, hicU]
  · rw [hcommit]
    unfold get_claim_for_item
    rw [update_item_selection_message_id_claims, set_member_winner_remaining_claims,
      add_claim_claims, List.filter_append, claims_filter_nil hnc1]
    simp [hcode1, htid1, hicU, hpuid]

/-- **C8.** For a claimant holding the live claim on an item in the open
session: unassigning deletes the Claim record, refunds exactly +1 to the
claimant's remaining-pick count (an absent winner entry counting as zero),
and re-lists the item under the fresh listing message; a subsequent
re-claim of the same item by the same claimant via the reaction handler is
accepted and restores exactly the pre-unassign remaining-pick count (net
zero over the round trip), with the item again holding a live claim of that
claimant. -/
theorem C8_unassign_reclaim_roundtrip
    (db : DB) (uid m : Nat) (codeArg ic : String) (c : ClaimRow) (itm : Item)
    (env : BotEnv) (p : ReactionEvent)
    (htid : get_active_thread_id db ≠ 0)
    (hic : parse_item_code codeArg = some ic)
    (hclaim : get_claim_for_item db (get_active_thread_id db) ic = some c)
    (howner : c.userId = some uid)
    (huniq : ClaimsOK db.claims)
    (hitm : get_item db ic = some itm)
    (hrem : 0 ≤ win_remaining db uid)
    (hpuid : p.userId = uid) (hself : p.userId ≠ env.botUserId)
    (hemoji : p.emoji ∈ env.claimEmojis) (hguild : env.guildFound = true)
    (hmf : env.memberFetchOk = true) (hpanic : (get_panic_meta db).1 = false)
    (hmsg : p.messageId = m)
    (hfresh : ∀ it ∈ db.items, it.selectionMessageId ≠ m) :
    (unassign_cmd db true uid codeArg m).1 = CmdResult.done ∧
    win_remaining (unassign_cmd db true uid codeArg m).2 uid = win_remaining db uid + 1 ∧
    is_item_claimed (unassign_cmd db true uid codeArg m).2 ic (get_active_thread_id db)
      = false ∧
    (get_item (unassign_cmd db true uid codeArg m).2 ic).map Item.selectionMessageId
      = some m ∧
    (on_raw_reaction_add env (unassign_cmd db true uid codeArg m).2 p).1
      = ReactionResult.committed ∧
    win_remaining (on_raw_reaction_add env (unassign_cmd db true uid codeArg m).2 p).2 uid
      = win_remaining db uid ∧
    is_item_claimed (on_raw_reaction_add env (unassign_cmd db true uid codeArg m).2 p).2 ic
      (get_active_thread_id db) = true ∧
    (get_claim_for_item (on_raw_reaction_add env (unassign_cmd db true uid codeArg m).2 p).2
      (get_active_thread_id db) ic).map ClaimRow.userId = some (some uid) := by
  have hicU : py_upper ic = ic := parse_item_code_upper hic
  have hitmcode : itm.itemCode = ic := by
    have h0 := get_item_code hitm
    rw [hicU] at h0
    exact h0
  have hun := unassign_cmd_eq db uid m codeArg ic c itm htid hic hclaim howner hitm
  cases hw : get_winner_state db uid with
  | some st =>
    rw [hw] at hun
    simp only [] at hun
    have hun1 : (unassign_cmd db true uid codeArg m).1 = CmdResult.done := by rw [hun]
    have hun2 : (unassign_cmd db true uid codeArg m).2
        = update_item_selection_message_id
            (set_member_winner_remaining (delete_claim_by_id db c.id) uid st.1 (st.2 + 1))
            itm.itemCode m := by rw [hun]
    have hwrem : win_remaining db uid = st.2 := by
      unfold win_remaining
      rw [hw]
      rfl
    have hVpos : (0:Int) < st.2 + 1 := by
      have h0 := hrem
      rw [hwrem] at h0
      omega
    have hmain := reclaim_after_refund db uid m ic c itm env p st.1 (st.2 + 1)
      (update_item_selection_message_id
        (set_member_winner_remaining (delete_claim_by_id db c.id) uid st.1 (st.2 + 1))
        itm.itemCode m) rfl htid hicU hitmcode huniq hclaim hitm hVpos hpuid hself hemoji
      hguild hmf hpanic hmsg hfresh
    refine ⟨hun1, ?_, ?_, ?_, ?_, ?_, ?_, ?_⟩
    · rw [hun2, hmain.1, hwrem]
    · rw [hun2]
      exact hmain.2.1
    · rw [hun2]
      exact hmain.2.2.1
    · rw [hun2]
      exact hmain.2.2.2.1
    · rw [hun2, hmain.2.2.2.2.1, hwrem]
      omega
    · rw [hun2]
      exact hmain.2.2.2.2.2.1
    · rw [hun2]
      exact hmain.2.2.2.2.2.2
  | none =>
    rw [hw] at hun
    simp only [] at hun
    have hun1 : (unassign_cmd db true uid codeArg m).1 = CmdResult.done := by rw [hun]
    have hun2 : (unassign_cmd db true uid codeArg m).2
        = update_item_selection_message_id
            (set_member_winner_remaining (delete_claim_by_id db c.id) uid c.reason 1)
            itm.itemCode m := by rw [hun]
    have hwrem : win_remaining db uid = 0 := by
      unfold win_remaining
      rw [hw]
      rfl
    have hmain := reclaim_after_refund db uid m ic c itm env p c.reason 1
      (update_item_selection_message_id
        (set_member_winner_remaining (delete_claim_by_id db c.id) uid c.reason 1)
        itm.itemCode m) rfl htid hicU hitmcode huniq hclaim hitm (by omega) hpuid hself hemoji
      hguild hmf hpanic hmsg hfresh
    refine ⟨hun1, ?_, ?_, ?_, ?_, ?_, ?_, ?_⟩
    · rw [hun2, hmain.1, hwrem]
      omega
    · rw [hun2]
      exact hmain.2.1
    · rw [hun2]
      exact hmain.2.2.1
    · rw [hun2]
      exact hmain.2.2.2.1
    · rw [hun2, hmain.2.2.2.2.1, hwrem]
      omega
    · rw [hun2]
      exact hmain.2.2.2.2.2.1
    · rw [hun2]
      exact hmain.2.2.2.2.2.2

/-- Concrete state for the C8 witness: alice (user 7) holds the live claim
on N001 in session 55 with 2 picks left; unassign reposts the listing as
message 201 and she re-claims by reacting to it. -/
def c8_db : DB :=
  { items := [⟨"N001", "N", 1, "wm1.png", "u1", "raw1.png", "r1", 0⟩],
    winners := [⟨7, "giveaway", 2⟩], guestWinners := [],
    claims := [⟨1, "t0", 1, 55, some 7, "alice#1", "giveaway", "N", "N001", 1, "wm1.png",
                "raw1.png"⟩],
    nextClaimId := 2,
    settings := [("active_claims_thread_id", "55")] }

def c8_event : ReactionEvent := ⟨7, 1, 10, 201, "👍", "alice#1", "alice"⟩

theorem C8_unassign_reclaim_roundtrip_witness :
    (unassign_cmd c8_db true 7 "N001" 201).1 = CmdResult.done ∧
    win_remaining (unassign_cmd c8_db true 7 "N001" 201).2 7 = win_remaining c8_db 7 + 1 ∧
    is_item_claimed (unassign_cmd c8_db true 7 "N001" 201).2 "N001"
      (get_active_thread_id c8_db) = false ∧
    (get_item (unassign_cmd c8_db true 7 "N001" 201).2 "N001").map Item.selectionMessageId
      = some 201 ∧
    (on_raw_reaction_add c3_env (unassign_cmd c8_db true 7 "N001" 201).2 c8_event).1
      = ReactionResult.committed ∧
    win_remaining
      (on_raw_reaction_add c3_env (unassign_cmd c8_db true 7 "N001" 201).2 c8_event).2 7
      = win_remaining c8_db 7 ∧
    is_item_claimed
      (on_raw_reaction_add c3_env (unassign_cmd c8_db true 7 "N001" 201).2 c8_event).2 "N001"
      (get_active_thread_id c8_db) = true ∧
    (get_claim_for_item
      (on_raw_reaction_add c3_env (unassign_cmd c8_db true 7 "N001" 201).2 c8_event).2
      (get_active_thread_id c8_db) "N001").map ClaimRow.userId = some (some 7) :=
  C8_unassign_reclaim_roundtrip c8_db 7 201 "N001" "N001"
    ⟨1, "t0", 1, 55, some 7, "alice#1", "giveaway", "N", "N001", 1, "wm1.png", "raw1.png"⟩
    ⟨"N001", "N", 1, "wm1.png", "u1", "raw1.png", "r1", 0⟩ c3_env c8_event
    (by decide) (by decide) (by decide) (by decide) (by decide) (by decide) (by decide)
    (by decide) (by decide) (by decide) (by decide) (by decide) (by decide) (by decide)
    (by decide)

/-- The successful branch of `!swap`, as one equation: delete the old
claim, repost the old listing under the fresh message id, and force-claim
the new item without decrementing the pick count. -/
theorem swap_cmd_eq (db : DB) (now tag oldA newA : String) (gid mid m : Nat)
    (oic nic : String) (c : ClaimRow) (oitm nitm : Item)
    (htid : get_active_thread_id db ≠ 0)
    (hoic : parse_item_code oldA = some oic) (hnic : parse_item_code newA = some nic)
    (hfront : oic.front = nic.front)
    (hclaim : get_claim_for_item db (get_active_thread_id db) oic = some c)
    (howner : c.userId = some mid)
    (hunclaimed : is_item_claimed db nic (get_active_thread_id db) = false)
    (hoitm : get_item db oic = some oitm) (hnitm : get_item db nic = some nitm) :
    swap_cmd db now true gid mid tag oldA newA m
      = (CmdResult.done, force_claim_discord
          (update_item_selection_message_id (delete_claim_by_id db c.id) oitm.itemCode m)
          now gid mid tag nic c.reason false) := by
  have hitm1 : get_item (delete_claim_by_id db c.id) oic = some oitm := by
    rw [get_item_congr (delete_claim_by_id_items db c.id) oic]
    exact hoitm
  unfold swap_cmd repost_listing
  simp only [Bool.not_true, Bool.false_eq_true, if_false, hoic, hnic, hclaim, howner,
    hunclaimed, hnitm, Option.isNone_some]
  rw [if_neg htid]
  rw [if_neg (fun h => h hfront)]
  simp only [ne_eq, not_true_eq_false, if_false]
  simp [hitm1]

/-- `force_claim_discord` with `decrement_pick = false`, as one equation:
clear the listing reference if one is recorded, then insert the claim row;
the winners table is untouched. -/
theorem force_claim_discord_eq (db : DB) (now : String) (gid mid : Nat) (tag ic r : String)
    (item : Item)
    (htid : get_active_thread_id db ≠ 0)
    (hitem : get_item db ic = some item) :
    force_claim_discord db now gid mid tag ic r false
      = add_claim (if item.selectionMessageId ≠ 0
          then update_item_selection_message_id db item.itemCode 0 else db)
        now gid (get_active_thread_id db) (some mid) tag r
        item.category item.itemCode item.number item.wmFilename item.rawFilename := by
  unfold force_claim_discord
  simp only [hitem, Bool.false_eq_true, if_false]
  rw [if_neg htid]

/-- **C9.** For a claimant holding the live claim on item `old` in the open
session and an unclaimed, listed item `new` of the same category letter:
`!swap old new` succeeds, leaves the winners table (hence the claimant's
remaining-pick count) unchanged, removes every live claim on `old` in the
session, re-lists `old` under the fresh listing message id, and leaves
`new` with exactly one live claim in the session, belonging to the
claimant. -/
theorem C9_swap_moves_claim_without_pick_change
    (db : DB) (now tag oldA newA : String) (gid mid m : Nat)
    (oic nic : String) (c : ClaimRow) (oitm nitm : Item)
    (htid : get_active_thread_id db ≠ 0)
    (hoic : parse_item_code oldA = some oic)
    (hnic : parse_item_code newA = some nic)
    (hfront : oic.front = nic.front)
    (hclaim : get_claim_for_item db (get_active_thread_id db) oic = some c)
    (howner : c.userId = some mid)
    (hunclaimed : is_item_claimed db nic (get_active_thread_id db) = false)
    (hoitm : get_item db oic = some oitm)
    (hnitm : get_item db nic = some nitm)
    (huniq : ClaimsOK db.claims) :
    (swap_cmd db now true gid mid tag oldA newA m).1 = CmdResult.done ∧
    (swap_cmd db now true gid mid tag oldA newA m).2.winners = db.winners ∧
    win_remaining (swap_cmd db now true gid mid tag oldA newA m).2 mid = win_remaining db mid ∧
    is_item_claimed (swap_cmd db now true gid mid tag oldA newA m).2 oic
      (get_active_thread_id db) = false ∧
    (get_item (swap_cmd db now true gid mid tag oldA newA m).2 oic).map
      Item.selectionMessageId = some m ∧
    ((swap_cmd db now true gid mid tag oldA newA m).2.claims.filter fun x =>
        decide (x.threadId = get_active_thread_id db)
          && decide (x.itemCode = py_upper nic)).map ClaimRow.userId = [some mid] := by
  have hoicU : py_upper oic = oic := parse_item_code_upper hoic
  have hnicU : py_upper nic = nic := parse_item_code_upper hnic
  obtain ⟨hcmem, hctid, hccode⟩ := get_claim_for_item_mem hclaim
  have hnoclaim := is_item_claimed_eq_false_iff.mp hunclaimed
  have hne : py_upper oic ≠ py_upper nic := by
    intro h
    exact hnoclaim c hcmem ⟨hctid, by rw [hccode, h]⟩
  have hoitmcode : oitm.itemCode = oic := by
    have h0 := hoitm
    unfold get_item at h0
    have h1 := List.find?_some h0
    simp only [decide_eq_true_eq] at h1
    rw [h1, hoicU]
  have hnitmcode : nitm.itemCode = nic := by
    have h0 := hnitm
    unfold get_item at h0
    have h1 := List.find?_some h0
    simp only [decide_eq_true_eq] at h1
    rw [h1, hnicU]
  have heq := swap_cmd_eq db now tag oldA newA gid mid m oic nic c oitm nitm htid hoic hnic
    hfront hclaim howner hunclaimed hoitm hnitm
  have h1 : (swap_cmd db now true gid mid tag oldA newA m).1 = CmdResult.done := by rw [heq]
  have h2 : (swap_cmd db now true gid mid tag oldA newA m).2
      = force_claim_discord
          (update_item_selection_message_id (delete_claim_by_id db c.id) oitm.itemCode m)
          now gid mid tag nic c.reason false := by rw [heq]
  have hset2 : (update_item_selection_message_id (delete_claim_by_id db c.id)
      oitm.itemCode m).settings = db.settings := rfl
  have htid2 : get_active_thread_id (update_item_selection_message_id
      (delete_claim_by_id db c.id) oitm.itemCode m) = get_active_thread_id db :=
    get_active_thread_id_congr hset2
  have htid2ne : get_active_thread_id (update_item_selection_message_id
      (delete_claim_by_id db c.id) oitm.itemCode m) ≠ 0 := by rw [htid2]; exact htid
  have hg2nic : get_item (update_item_selection_message_id (delete_claim_by_id db c.id)
      oitm.itemCode m) nic = some nitm := by
    rw [get_item_update_other _ oitm.itemCode nic m (by rw [hoitmcode]; exact hne),
      get_item_congr (delete_claim_by_id_items db c.id) nic]
    exact hnitm
  have hF := force_claim_discord_eq
    (update_item_selection_message_id (delete_claim_by_id db c.id) oitm.itemCode m)
    now gid mid tag nic c.reason nitm htid2ne hg2nic
  have hFwin : (force_claim_discord
      (update_item_selection_message_id (delete_claim_by_id db c.id) oitm.itemCode m)
      now gid mid tag nic c.reason false).winners = db.winners := by
    rw [hF]
    simp only [add_claim_winners]
    split <;> rfl
  have hdb0claims : (if nitm.selectionMessageId ≠ 0
      then update_item_selection_message_id (update_item_selection_message_id
        (delete_claim_by_id db c.id) oitm.itemCode m) nitm.itemCode 0
      else update_item_selection_message_id (delete_claim_by_id db c.id)
        oitm.itemCode m).claims
      = db.claims.filter fun x => decide (x.id ≠ c.id) := by split <;> rfl
  have hdb0next : (if nitm.selectionMessageId ≠ 0
      then update_item_selection_message_id (update_item_selection_message_id
        (delete_claim_by_id db c.id) oitm.itemCode m) nitm.itemCode 0
      else update_item_selection_message_id (delete_claim_by_id db c.id)
        oitm.itemCode m).nextClaimId
      = db.nextClaimId := by split <;> rfl
  have hFclaims : (force_claim_discord
      (update_item_selection_message_id (delete_claim_by_id db c.id) oitm.itemCode m)
      now gid mid tag nic c.reason false).claims
      = (db.claims.filter fun x => decide (x.id ≠ c.id))
        ++ [⟨db.nextClaimId, now, gid, get_active_thread_id db, some mid, tag, c.reason,
            py_upper nitm.category, py_upper nic, nitm.number, nitm.wmFilename,
            nitm.rawFilename⟩] := by
    rw [hF, add_claim_claims, hdb0claims, hdb0next, htid2, hnitmcode]
  have hFnoOld : is_item_claimed (force_claim_discord
      (update_item_selection_message_id (delete_claim_by_id db c.id) oitm.itemCode m)
      now gid mid tag nic c.reason false) oic (get_active_thread_id db) = false := by
    rw [is_item_claimed_eq_false_iff]
    intro x hx hcon
    rw [hFclaims] at hx
    rcases List.mem_append.mp hx with hx1 | hx2
    · have hdel := is_item_claimed_after_delete huniq hclaim
      rw [is_item_claimed_eq_false_iff] at hdel
      exact hdel x hx1 hcon
    · rw [List.mem_singleton] at hx2
      subst hx2
      exact hne hcon.2.symm
  have hexfind : (db.items.find? fun it => decide (it.itemCode = oic)).isSome = true := by
    have h0 := hoitm
    unfold get_item at h0
    rw [hoicU] at h0
    rw [h0]
    rfl
  have hitems2 : (update_item_selection_message_id (delete_claim_by_id db c.id)
      oitm.itemCode m).items
      = db.items.map fun it => if it.itemCode = oic then { it with selectionMessageId := m }
          else it := by
    rw [update_item_selection_message_id_items]
    simp only [delete_claim_by_id_items, hoitmcode, hoicU]
  have hsel2 : (get_item (update_item_selection_message_id (delete_claim_by_id db c.id)
      oitm.itemCode m) oic).map Item.selectionMessageId = some m := by
    unfold get_item
    simp only [hoicU, hitems2]
    exact find_code_update db.items oic m hexfind
  have hgF : get_item (force_claim_discord
      (update_item_selection_message_id (delete_claim_by_id db c.id) oitm.itemCode m)
      now gid mid tag nic c.reason false) oic
      = get_item (update_item_selection_message_id (delete_claim_by_id db c.id)
          oitm.itemCode m) oic := by
    rw [hF]
    split
    · exact get_item_update_other _ nitm.itemCode oic 0 (by rw [hnitmcode]; exact Ne.symm hne)
    · rfl
  have hnil : ((db.claims.filter fun x => decide (x.id ≠ c.id)).filter fun x =>
      decide (x.threadId = get_active_thread_id db)
        && decide (x.itemCode = py_upper nic)) = [] := by
    rw [List.filter_eq_nil_iff]
    intro x hx hp
    simp only [Bool.and_eq_true, decide_eq_true_eq] at hp
    exact hnoclaim x (List.mem_of_mem_filter hx) hp
  have hw : (swap_cmd db now true gid mid tag oldA newA m).2.winners = db.winners := by
    rw [h2]
    exact hFwin
  refine ⟨h1, hw, ?_, ?_, ?_, ?_⟩
  · unfold win_remaining
    rw [get_winner_state_congr hw mid]
  · rw [h2]
    exact hFnoOld
  · rw [h2, hgF]
    exact hsel2
  · rw [h2, hFclaims, List.filter_append, hnil]
    simp

/-- Concrete state for the C9 witness: alice (user 7, 2 picks left) holds
the live claim on N001 in session 55; N002 is listed (message 102) and
unclaimed; she swaps N001 for N002, the old listing coming back as
message 201. -/
def c9_db : DB :=
  { items := [⟨"N001", "N", 1, "wm1.png", "u1", "raw1.png", "r1", 0⟩,
              ⟨"N002", "N", 2, "wm2.png", "u2", "raw2.png", "r2", 102⟩],
    winners := [⟨7, "giveaway", 2⟩], guestWinners := [],
    claims := [⟨1, "t0", 1, 55, some 7, "alice#1", "giveaway", "N", "N001", 1, "wm1.png",
                "raw1.png"⟩],
    nextClaimId := 2,
    settings := [("active_claims_thread_id", "55")] }

theorem C9_swap_moves_claim_without_pick_change_witness :
    (swap_cmd c9_db "t1" true 1 7 "alice#1" "N001" "N002" 201).1 = CmdResult.done ∧
    (swap_cmd c9_db "t1" true 1 7 "alice#1" "N001" "N002" 201).2.winners = c9_db.winners ∧
    win_remaining (swap_cmd c9_db "t1" true 1 7 "alice#1" "N001" "N002" 201).2 7
      = win_remaining c9_db 7 ∧
    is_item_claimed (swap_cmd c9_db "t1" true 1 7 "alice#1" "N001" "N002" 201).2 "N001"
      (get_active_thread_id c9_db) = false ∧
    (get_item (swap_cmd c9_db "t1" true 1 7 "alice#1" "N001" "N002" 201).2 "N001").map
      Item.selectionMessageId = some 201 ∧
    ((swap_cmd c9_db "t1" true 1 7 "alice#1" "N001" "N002" 201).2.claims.filter fun x =>
        decide (x.threadId = get_active_thread_id c9_db)
          && decide (x.itemCode = py_upper "N002")).map ClaimRow.userId = [some 7] :=
  C9_swap_moves_claim_without_pick_change c9_db "t1" "alice#1" "N001" "N002" 1 7 201
    "N001" "N002"
    ⟨1, "t0", 1, 55, some 7, "alice#1", "giveaway", "N", "N001", 1, "wm1.png", "raw1.png"⟩
    ⟨"N001", "N", 1, "wm1.png", "u1", "raw1.png", "r1", 0⟩
    ⟨"N002", "N", 2, "wm2.png", "u2", "raw2.png", "r2", 102⟩
    (by decide) (by decide) (by decide) (by decide) (by decide) (by decide) (by decide)
    (by decide) (by decide) (by decide)

end EvansBot
